import Mathlib

/-!
Verification of the ABG analyzer engine (`src/utils/abgCalculator.js`).

The engine is a single class `ABGAnalyzer` whose `analyze` method resets an
internal state/results record and then runs the ATS six-step pipeline over a
set of blood-gas measurements.  We embed it shallowly: JavaScript numbers are
modelled as `ℚ` (all constants in the source are decimal literals), a missing,
`null` or non-numeric (`NaN`) input is modelled as `Option.none`, and the
mutable `this.state` / `this.results` records become explicit state passing.

Strings produced by the engine are built faithfully from the source templates.
`Number.prototype.toFixed` and the default number-to-string conversion used in
template literals are modelled by `toFixed` and `jsNumToString` below; both
agree with JavaScript on every finite decimal value (and every value appearing
in the analysed scenarios).  `Math.pow(10, -ph) * 1e9` (used only for the text
of step 1, which feeds no state and no later step) is transcendental over `ℚ`,
so it is kept as an explicit function parameter `pow10` of the pipeline; no
theorem below depends on its values.
-/

/-- The measurement keys the engine reads (`values.ph`, `values.paco2`,
`values.hco3`, `values.na`, `values.cl`, `values.albumin`).  `none` models a
key that is absent, `null`, or `NaN`. -/
structure Values where
  ph : Option ℚ
  paco2 : Option ℚ
  hco3 : Option ℚ
  na : Option ℚ
  cl : Option ℚ
  albumin : Option ℚ

/-- The `this.state` record of `ABGAnalyzer` (the JavaScript field
`deltaRatio` is called `deltaRatioValue` here). -/
structure AnalysisState where
  acidBaseStatus : Option String
  primaryDisorder : Option String
  compensationType : Option String
  expectedCompensationValue : Option ℚ
  compensationAssessment : Option String
  additionalDisorders : List String
  anionGap : Option ℚ
  correctedAnionGap : Option ℚ
  deltaRatioValue : Option ℚ
  deltaRatioAssessment : Option String

/-- The `this.results` record of `ABGAnalyzer`. -/
structure AnalysisResults where
  step1 : String
  step2 : String
  step3 : String
  step4 : String
  step5 : String
  step6 : String
  finalInterpretation : String
  error : Option String

/-- The object returned by `analyze`: `{ ...this.results, state: this.state }`. -/
structure AnalysisResult where
  results : AnalysisResults
  state : AnalysisState

/-- State as set by `resetStateAndResults`. -/
def resetState : AnalysisState :=
  { acidBaseStatus := none, primaryDisorder := none, compensationType := none,
    expectedCompensationValue := none, compensationAssessment := none,
    additionalDisorders := [], anionGap := none, correctedAnionGap := none,
    deltaRatioValue := none, deltaRatioAssessment := none }

/-- Results as set by `resetStateAndResults`. -/
def resetResults : AnalysisResults :=
  { step1 := "", step2 := "", step3 := "", step4 := "", step5 := "", step6 := "",
    finalInterpretation := "", error := none }

/-- Does the character list `pat` occur at the head of `s`?  Structural helper
for `containsSubstr`. -/
def charsStartWith : List Char → List Char → Bool
  | _, [] => true
  | [], _ :: _ => false
  | c :: cs, d :: ds => c == d && charsStartWith cs ds

/-- Does the character list `pat` occur anywhere inside `s`? -/
def charsContain : List Char → List Char → Bool
  | [], pat => pat.isEmpty
  | s@(_ :: rest), pat => charsStartWith s pat || charsContain rest pat

/-- Model of `String.prototype.includes`. -/
def containsSubstr (s pat : String) : Bool :=
  charsContain s.data pat.data

/-- Smallest exponent `d ≤ 20` with `den ∣ 10 ^ d`, if any: the number of
decimal digits needed to write a fraction with denominator `den` exactly. -/
def firstDecExp (den : ℕ) : Option ℕ :=
  (List.range 21).find? (fun d => 10 ^ d % den == 0)

/-- Model of the default JavaScript number-to-string conversion used by
template literals, for finite decimal values: the shortest exact decimal
representation (JavaScript prints the shortest decimal that round-trips, which
for a decimally-representable value is that value's minimal decimal form).
Values that are not finite decimals are printed as `num/den`; they do not
arise in any scenario considered below. -/
def jsNumToString (q : ℚ) : String :=
  match firstDecExp q.den with
  | some 0 => toString q.num
  | some d =>
    let m := q.num.natAbs * (10 ^ d / q.den)
    let ip := m / 10 ^ d
    let fp := m % 10 ^ d
    let fpStr := toString fp
    let pad := String.mk (List.replicate (d - fpStr.length) '0')
    (if q.num < 0 then "-" else "") ++ toString ip ++ "." ++ pad ++ fpStr
  | none => toString q.num ++ "/" ++ toString q.den

/-- Model of `Number.prototype.toFixed d`: round to `d` decimal digits, ties
toward positive infinity (ECMA: "if there are two such n, pick the larger n"),
then print with exactly `d` fractional digits. -/
def toFixed (q : ℚ) (d : ℕ) : String :=
  let n := round (q * (10 : ℚ) ^ d)
  let m := n.natAbs
  let ip := m / 10 ^ d
  let fp := m % 10 ^ d
  let fpStr := toString fp
  let pad := String.mk (List.replicate (d - fpStr.length) '0')
  (if n < 0 then "-" else "") ++
    (if d = 0 then toString ip else toString ip ++ "." ++ pad ++ fpStr)

/-- `validateInputs`: required values (in the fixed order ph, paco2, hco3,
each rejected when missing/`null`/`NaN`, i.e. `none`), then the range checks.
On success the three validated numbers are handed to the pipeline. -/
def validateInputs (values : Values) : Except String (ℚ × ℚ × ℚ) :=
  match values.ph with
  | none => .error "Missing or invalid required value: PH"
  | some ph =>
  match values.paco2 with
  | none => .error "Missing or invalid required value: PACO2"
  | some paco2 =>
  match values.hco3 with
  | none => .error "Missing or invalid required value: HCO3"
  | some hco3 =>
  if ph < 6.0 ∨ ph > 8.0 then
    .error ("pH value (" ++ jsNumToString ph ++
      ") is outside typical physiological range (6.8-8.0).")
  else if paco2 < 10 ∨ paco2 > 150 then
    .error ("PaCO₂ value (" ++ jsNumToString paco2 ++
      ") is outside typical physiological range (10-150 mmHg).")
  else if hco3 < 2 ∨ hco3 > 60 then
    .error ("HCO₃⁻ value (" ++ jsNumToString hco3 ++
      ") is outside typical physiological range (5-60 mmol/L).")
  else
    .ok (ph, paco2, hco3)

/-- Step 1, `checkInternalConsistency`.  `pow10 ph` stands for the measured
[H⁺] value `Math.pow(10, -ph) * 1e9`; the result is a pure text, no state is
written.  (The JavaScript `!isNaN(difference)` guard cannot fire over `ℚ`.) -/
def checkInternalConsistency (pow10 : ℚ → ℚ) (ph paco2 hco3 : ℚ) : String :=
  if hco3 = 0 then "Inconsistency: HCO₃⁻ cannot be zero."
  else
    let calculatedH := 24 * (paco2 / hco3)
    let measuredH := pow10 ph
    let difference := |calculatedH - measuredH|
    let acceptableDifference := measuredH * 0.20
    if difference > acceptableDifference then
      "Possible inconsistency detected. Measured [H⁺] ≈ " ++ toFixed measuredH 1 ++
        " nmol/L, Calculated [H⁺] ≈ " ++ toFixed calculatedH 1 ++ " nmol/L."
    else
      "Values appear internally consistent. Measured [H⁺] ≈ " ++ toFixed measuredH 1 ++
        " nmol/L, Calculated [H⁺] ≈ " ++ toFixed calculatedH 1 ++ " nmol/L."

/-- Step 2, `determineAcidemiaAlkalemia`. -/
def determineAcidemiaAlkalemia (ph : ℚ) (s : AnalysisState) : String × AnalysisState :=
  if ph < 7.35 then
    ("Acidemia (pH " ++ toFixed ph 2 ++ " < 7.35)",
     { s with acidBaseStatus := some "acidemia" })
  else if ph > 7.45 then
    ("Alkalemia (pH " ++ toFixed ph 2 ++ " > 7.45)",
     { s with acidBaseStatus := some "alkalemia" })
  else
    ("Normal pH (" ++ toFixed ph 2 ++ ")",
     { s with acidBaseStatus := some "normal" })

/-- Step 3, `identifyPrimaryDisorder`. -/
def identifyPrimaryDisorder (ph paco2 hco3 : ℚ) (s : AnalysisState) :
    String × AnalysisState :=
  if s.acidBaseStatus = some "acidemia" then
    if paco2 > 45 then
      ("Primary Respiratory Acidosis (PaCO₂ " ++ jsNumToString paco2 ++ " mmHg is high)",
       { s with primaryDisorder := some "respiratory acidosis" })
    else if hco3 < 22 then
      ("Primary Metabolic Acidosis (HCO₃⁻ " ++ jsNumToString hco3 ++ " mmol/L is low)",
       { s with primaryDisorder := some "metabolic acidosis" })
    else
      ("Acidemia present, but PaCO₂ (" ++ jsNumToString paco2 ++ ") and HCO₃⁻ (" ++
         jsNumToString hco3 ++
         ") do not clearly indicate a single primary disorder. Mixed disorder likely.",
       { s with primaryDisorder := some "mixed acidemia" })
  else if s.acidBaseStatus = some "alkalemia" then
    if paco2 < 35 then
      ("Primary Respiratory Alkalosis (PaCO₂ " ++ jsNumToString paco2 ++ " mmHg is low)",
       { s with primaryDisorder := some "respiratory alkalosis" })
    else if hco3 > 26 then
      ("Primary Metabolic Alkalosis (HCO₃⁻ " ++ jsNumToString hco3 ++ " mmol/L is high)",
       { s with primaryDisorder := some "metabolic alkalosis" })
    else
      ("Alkalemia present, but PaCO₂ (" ++ jsNumToString paco2 ++ ") and HCO₃⁻ (" ++
         jsNumToString hco3 ++
         ") do not clearly indicate a single primary disorder. Mixed disorder likely.",
       { s with primaryDisorder := some "mixed alkalemia" })
  else
    if paco2 > 45 ∧ hco3 > 26 then
      ("Normal pH with high PaCO₂ and high HCO₃⁻ suggests Mixed Disorder (Compensated Respiratory Acidosis + Metabolic Alkalosis).",
       { s with primaryDisorder := some "mixed compensated resp acid + met alk" })
    else if paco2 < 35 ∧ hco3 < 22 then
      ("Normal pH with low PaCO₂ and low HCO₃⁻ suggests Mixed Disorder (Compensated Respiratory Alkalosis + Metabolic Acidosis).",
       { s with primaryDisorder := some "mixed compensated resp alk + met acid" })
    else if paco2 ≥ 35 ∧ paco2 ≤ 45 ∧ hco3 ≥ 22 ∧ hco3 ≤ 26 then
      ("Normal acid-base status (pH, PaCO₂, HCO₃⁻ within normal ranges).",
       { s with primaryDisorder := some "normal" })
    else if paco2 > 45 ∨ hco3 > 26 then
      ("Normal pH with abnormal PaCO₂ or HCO₃⁻ suggests a fully compensated disorder or borderline values.",
       { s with primaryDisorder := some "compensated" })
    else if paco2 < 35 ∨ hco3 < 22 then
      ("Normal pH with abnormal PaCO₂ or HCO₃⁻ suggests a fully compensated disorder or borderline values.",
       { s with primaryDisorder := some "compensated" })
    else
      ("Normal acid-base status.", { s with primaryDisorder := some "normal" })

/-- The text appended after the `switch` in `evaluateCompensation` (source
lines 326-335): reports the assessment, naming the last pushed disorder in
the mixed case. -/
def appendAssessment (base : String) (s : AnalysisState) : String :=
  if s.compensationAssessment = some "appropriate" then
    base ++ " Compensation is appropriate."
  else if s.compensationAssessment = some "mixed" then
    let superimposed := (s.additionalDisorders.getLast?).getD "unknown"
    base ++ " Suggests a superimposed " ++ String.replace superimposed "_" " " ++ "."
  else
    base ++ " Compensation assessment unclear."

/-- The skip guard of `evaluateCompensation` (source line 232):
`!primary || primary.includes('mixed') || primary === 'normal' ||
primary === 'compensated'`. -/
def compSkip (primary : Option String) : Bool :=
  match primary with
  | none => true
  | some p => containsSubstr p "mixed" || p == "normal" || p == "compensated"

/-- The adequacy block shared by the two respiratory cases of
`evaluateCompensation` (source lines 289-295 and 313-319), reading the chosen
expected value `e` (`this.state.expectedCompensationValue`): lower HCO₃⁻ than
expected means more acidosis, higher means more alkalosis. -/
def respAssess (hco3 e : ℚ) (s1 : AnalysisState) : AnalysisState :=
  if |hco3 - e| ≤ 3 then
    { s1 with compensationAssessment := some "appropriate" }
  else if hco3 < e - 3 then
    { s1 with compensationAssessment := some "mixed",
              additionalDisorders := s1.additionalDisorders ++ ["metabolic acidosis"] }
  else
    { s1 with compensationAssessment := some "mixed",
              additionalDisorders := s1.additionalDisorders ++ ["metabolic alkalosis"] }

/-- Step 4, `evaluateCompensation`. -/
def evaluateCompensation (paco2 hco3 : ℚ) (s : AnalysisState) : String × AnalysisState :=
  if compSkip s.primaryDisorder then
    if s.primaryDisorder = some "compensated" then
      ("Full compensation (pH is within normal range).", s)
    else
      ("Compensation assessment skipped (Mixed, Normal, or Undetermined Primary).", s)
  else
    if s.primaryDisorder = some "metabolic acidosis" then
      let expected := 1.5 * hco3 + 8
      let s1 := { s with expectedCompensationValue := some expected }
      let base := "Expected PaCO₂ ≈ " ++ toFixed expected 1 ++
        " ± 2 mmHg (Winter's). Measured PaCO₂ = " ++ toFixed paco2 1 ++ " mmHg."
      let s2 :=
        if |paco2 - expected| ≤ 2 then
          { s1 with compensationAssessment := some "appropriate" }
        else if paco2 < expected - 2 then
          { s1 with compensationAssessment := some "mixed",
                    additionalDisorders := s1.additionalDisorders ++ ["respiratory alkalosis"] }
        else
          { s1 with compensationAssessment := some "mixed",
                    additionalDisorders := s1.additionalDisorders ++ ["respiratory acidosis"] }
      (appendAssessment base s2, s2)
    else if s.primaryDisorder = some "metabolic alkalosis" then
      let expected := 40 + 0.6 * (hco3 - 24)
      let s1 := { s with expectedCompensationValue := some expected }
      let base := "Expected PaCO₂ ≈ " ++ toFixed expected 1 ++
        " ± 5 mmHg. Measured PaCO₂ = " ++ toFixed paco2 1 ++ " mmHg."
      let s2 :=
        if |paco2 - expected| ≤ 5 then
          { s1 with compensationAssessment := some "appropriate" }
        else if paco2 < expected - 5 then
          { s1 with compensationAssessment := some "mixed",
                    additionalDisorders := s1.additionalDisorders ++ ["respiratory alkalosis"] }
        else
          { s1 with compensationAssessment := some "mixed",
                    additionalDisorders := s1.additionalDisorders ++ ["respiratory acidosis"] }
      (appendAssessment base s2, s2)
    else if s.primaryDisorder = some "respiratory acidosis" then
      let deltaPaco2 := paco2 - 40
      let expectedAcuteHCO3 := 24 + deltaPaco2 * 0.1
      let expectedChronicHCO3 := 24 + deltaPaco2 * 0.35
      if |hco3 - expectedAcuteHCO3| < |hco3 - expectedChronicHCO3| then
        let s1 := { s with compensationType := some "acute",
                           expectedCompensationValue := some expectedAcuteHCO3 }
        let base := "Acute Compensation: Expected HCO₃⁻ ≈ " ++ toFixed expectedAcuteHCO3 1 ++
          " ± 3 mmol/L. Measured HCO₃⁻ = " ++ toFixed hco3 1 ++ " mmol/L."
        let s2 := respAssess hco3 expectedAcuteHCO3 s1
        (appendAssessment base s2, s2)
      else
        let s1 := { s with compensationType := some "chronic",
                           expectedCompensationValue := some expectedChronicHCO3 }
        let base := "Chronic Compensation: Expected HCO₃⁻ ≈ " ++ toFixed expectedChronicHCO3 1 ++
          " ± 3 mmol/L. Measured HCO₃⁻ = " ++ toFixed hco3 1 ++ " mmol/L."
        let s2 := respAssess hco3 expectedChronicHCO3 s1
        (appendAssessment base s2, s2)
    else if s.primaryDisorder = some "respiratory alkalosis" then
      let deltaPaco2 := paco2 - 40
      let expectedAcuteHCO3alk := 24 + deltaPaco2 * 0.2
      let expectedChronicHCO3alk := 24 + deltaPaco2 * 0.5
      if |hco3 - expectedAcuteHCO3alk| < |hco3 - expectedChronicHCO3alk| then
        let s1 := { s with compensationType := some "acute",
                           expectedCompensationValue := some expectedAcuteHCO3alk }
        let base := "Acute Compensation: Expected HCO₃⁻ ≈ " ++ toFixed expectedAcuteHCO3alk 1 ++
          " ± 3 mmol/L. Measured HCO₃⁻ = " ++ toFixed hco3 1 ++ " mmol/L."
        let s2 := respAssess hco3 expectedAcuteHCO3alk s1
        (appendAssessment base s2, s2)
      else
        let s1 := { s with compensationType := some "chronic",
                           expectedCompensationValue := some expectedChronicHCO3alk }
        let base := "Chronic Compensation: Expected HCO₃⁻ ≈ " ++ toFixed expectedChronicHCO3alk 1 ++
          " ± 3 mmol/L. Measured HCO₃⁻ = " ++ toFixed hco3 1 ++ " mmol/L."
        let s2 := respAssess hco3 expectedChronicHCO3alk s1
        (appendAssessment base s2, s2)
    else
      ("Error: Unknown primary disorder for compensation check.", s)

/-- The albumin correction of step 5 (source lines 355-360): applied exactly
when albumin is provided, numeric, and in `[0, 4.0)`. -/
def correctedAG (ag : ℚ) (albumin : Option ℚ) : ℚ :=
  match albumin with
  | some a => if a < 4 ∧ 0 ≤ a then ag + 2.5 * (4 - a) else ag
  | none => ag

/-- Step 5, `calculateAnionGap` (the source's `isNaN` guard on na/cl/hco3
cannot fire: the arguments are numbers here). -/
def calculateAnionGap (na cl hco3 : ℚ) (albumin : Option ℚ) (s : AnalysisState) :
    String × AnalysisState :=
  let ag := na - (cl + hco3)
  let s1 := { s with anionGap := some ag }
  let base := "Anion Gap = " ++ toFixed ag 1 ++ " mmol/L"
  let cag := correctedAG ag albumin
  let base2 :=
    match albumin with
    | some a =>
      if a < 4 ∧ 0 ≤ a then
        base ++ " (Normal ≈ 8-12). Albumin = " ++ toFixed a 1 ++
          " g/dL. Corrected AG ≈ " ++ toFixed cag 1 ++ " mmol/L."
      else if a < 0 then
        base ++ " (Normal ≈ 8-12)." ++ " (Invalid albumin value provided for correction)."
      else
        base ++ " (Normal ≈ 8-12)." ++ " (Albumin correction not needed)."
    | none => base ++ " (Normal ≈ 8-12)."
  let s2 := { s1 with correctedAnionGap := some cag }
  if cag > 12 then
    if s2.primaryDisorder ≠ some "metabolic acidosis" ∧
        "high anion gap metabolic acidosis" ∉ s2.additionalDisorders then
      (base2 ++ " Elevated Anion Gap." ++ " Suggests additional High AG Metabolic Acidosis.",
       { s2 with additionalDisorders :=
           s2.additionalDisorders ++ ["high anion gap metabolic acidosis"] })
    else
      (base2 ++ " Elevated Anion Gap.", s2)
  else
    (base2 ++ " Normal Anion Gap.", s2)

/-- The albumin-adjusted normal anion gap of step 6 (source lines 400-407):
default 12, adjusted by the same correction as step 5 and floored at 3. -/
def normalAGadj (albumin : Option ℚ) : ℚ :=
  match albumin with
  | some a => if a < 4 ∧ 0 ≤ a then max 3 (12 - 2.5 * (4 - a)) else 12
  | none => 12

/-- Step 6, `evaluateDeltaRatio` (renamed here).  It accepts an albumin
argument for the normal-AG adjustment; note that `analyze` calls it with only
two arguments, so inside the pipeline `albumin` is always `undefined`
(`none`). -/
def evaluateDeltaRatioStep (anionGap hco3 : ℚ) (albumin : Option ℚ)
    (s : AnalysisState) : String × AnalysisState :=
  let normalAG := normalAGadj albumin
  let deltaAG := anionGap - normalAG
  let deltaHCO3 := 24 - hco3
  if deltaHCO3 = 0 then
    ("Delta Ratio not calculable (ΔHCO₃⁻ is 0). High AG with normal HCO₃⁻ suggests concurrent Metabolic Alkalosis.",
     { s with deltaRatioAssessment := some "concurrent met alk likely (delta HCO3 is zero)" })
  else if deltaHCO3 < 0 then
    ("Delta Ratio interpretation complex (ΔHCO₃⁻ is negative: " ++ toFixed deltaHCO3 1 ++
       "). High AG with elevated HCO₃⁻ suggests concurrent Metabolic Alkalosis.",
     { s with deltaRatioAssessment := some "concurrent met alk likely (delta HCO3 negative)" })
  else
    let r := deltaAG / deltaHCO3
    let s1 := { s with deltaRatioValue := some r }
    let base := "Delta Ratio (ΔAG/ΔHCO₃⁻) = " ++ toFixed r 1 ++
      ". (Normal AG adjusted to " ++ toFixed normalAG 1 ++ " if albumin provided)."
    if r < 1 then
      let s2 := { s1 with deltaRatioAssessment := some "concurrent NAGMA" }
      let s3 :=
        if "normal anion gap metabolic acidosis" ∈ s2.additionalDisorders then s2
        else { s2 with additionalDisorders :=
                 s2.additionalDisorders ++ ["normal anion gap metabolic acidosis"] }
      (base ++ " Ratio < 1.0 suggests concurrent Normal Anion Gap Metabolic Acidosis (NAGMA).", s3)
    else if r > 2 then
      let s2 := { s1 with deltaRatioAssessment := some "concurrent met alk" }
      let s3 :=
        if "metabolic alkalosis" ∈ s2.additionalDisorders then s2
        else { s2 with additionalDisorders := s2.additionalDisorders ++ ["metabolic alkalosis"] }
      (base ++ " Ratio > 2.0 suggests concurrent Metabolic Alkalosis.", s3)
    else
      (base ++ " Ratio ≈ 1-2 is consistent with uncomplicated High Anion Gap Metabolic Acidosis.",
       { s1 with deltaRatioAssessment := some "pure HAGMA" })

/-- Structural dedup keeping the first occurrence of each label: the model of
`[...new Set(additionalDisorders)]`. -/
def dedupKeepFirstAux (seen : List String) : List String → List String
  | [] => []
  | x :: xs =>
    if x ∈ seen then dedupKeepFirstAux seen xs
    else x :: dedupKeepFirstAux (x :: seen) xs

/-- Model of `[...new Set(l)]`. -/
def dedupKeepFirst (l : List String) : List String :=
  dedupKeepFirstAux [] l

/-- `generateFinalInterpretation`.  `error` is `this.results.error`, which is
always `null` when this function runs inside `analyze` (validation failures
return earlier and nothing in the pipeline throws over `ℚ`).  The JavaScript
`String.prototype.replace` with a string pattern replaces the first occurrence
only; every label reaching it contains at most one occurrence of the pattern,
so Lean's replace-all `String.replace` coincides.  In the filter, JavaScript's
`this.state.anionGap <= 12` coerces `null` to `0`; that coercion is modelled
by `Option.getD 0`. -/
def generateFinalInterpretation (error : Option String) (s : AnalysisState) : String :=
  match error with
  | some e => "Analysis Error: " ++ e
  | none =>
  match s.primaryDisorder with
  | none => "Unable to determine final interpretation."
  | some primary =>
  if primary = "Undetermined" then "Unable to determine final interpretation."
  else if primary = "normal" then "Normal acid-base status."
  else
    let base := "Primary " ++
      (((String.replace primary "_" " ").replace "compensated" "").trim)
    let base2 :=
      if primary = "compensated" ∨ s.acidBaseStatus = some "normal" then
        base ++ " with complete compensation"
      else if s.compensationAssessment = some "appropriate" then
        base ++ " with expected compensation"
      else base
    let uniqueAdditional := dedupKeepFirst s.additionalDisorders
    let filteredAdditional := uniqueAdditional.filter (fun d =>
      if primary = "metabolic acidosis" ∧ d = "high anion gap metabolic acidosis" then false
      else if primary = "metabolic acidosis" ∧ d = "normal anion gap metabolic acidosis" ∧
          s.anionGap.getD 0 ≤ 12 then false
      else if primary = "metabolic alkalosis" ∧ d = "metabolic alkalosis" then false
      else if primary = "respiratory acidosis" ∧ d = "respiratory acidosis" then false
      else if primary = "respiratory alkalosis" ∧ d = "respiratory alkalosis" then false
      else true)
    let base3 :=
      if filteredAdditional.length > 0 then
        base2 ++ " and superimposed " ++
          String.intercalate " and " (filteredAdditional.map (fun d => String.replace d "_" " "))
      else base2
    base3.trim ++ "."

/-- The step-5 dispatch inside `analyze`: the anion gap is computed only when
`values.na`, `values.cl` and `values.hco3` are all provided (`values.hco3`
always is at this point, having passed validation). -/
def anionGapStage (na cl : Option ℚ) (hco3 : ℚ) (albumin : Option ℚ)
    (s : AnalysisState) : String × AnalysisState :=
  match na, cl with
  | some naV, some clV => calculateAnionGap naV clV hco3 albumin s
  | _, _ =>
    ("Skipped: Na⁺ and Cl⁻ values required for Anion Gap calculation.",
     { s with anionGap := none })

/-- The step-6 guard chain of `analyze` for a non-`null` `agToCheck`
(`agToCheck = this.state.correctedAnionGap ?? this.state.anionGap`): the
delta-ratio step is invoked as `this.evaluateDeltaRatio(agToCheck,
values.hco3)` — with no albumin argument. -/
def deltaRatioDispatch (agToCheck hco3 : ℚ) (s : AnalysisState) : String × AnalysisState :=
  if agToCheck > 12 ∧ s.primaryDisorder = some "metabolic acidosis" then
    evaluateDeltaRatioStep agToCheck hco3 none s
  else if agToCheck ≤ 12 ∧ s.primaryDisorder = some "metabolic acidosis" then
    ("Not Applicable: Anion gap is not elevated.", s)
  else
    ("Not Applicable: Primary disorder is not metabolic acidosis.", s)

/-- The remaining step-6 branch chain when `agToCheck` is `null`: the first
two guards are false, so only the last two apply. -/
def deltaRatioStage (hco3 : ℚ) (s : AnalysisState) : String × AnalysisState :=
  match s.correctedAnionGap with
  | some agToCheck => deltaRatioDispatch agToCheck hco3 s
  | none =>
    match s.anionGap with
    | some agToCheck => deltaRatioDispatch agToCheck hco3 s
    | none =>
      if s.primaryDisorder ≠ some "metabolic acidosis" then
        ("Not Applicable: Primary disorder is not metabolic acidosis.", s)
      else
        ("Skipped: Anion gap calculation was skipped or failed.", s)

/-- `analyze`: reset, validate, then the six steps and the final
interpretation.  Nothing in the pipeline can throw over `ℚ`, so the
`try`/`catch` wrapper is not represented. -/
def analyze (pow10 : ℚ → ℚ) (values : Values) : AnalysisResult :=
  match validateInputs values with
  | .error e => { results := { resetResults with error := some e }, state := resetState }
  | .ok (ph, paco2, hco3) =>
    let step1 := checkInternalConsistency pow10 ph paco2 hco3
    let r2 := determineAcidemiaAlkalemia ph resetState
    let r3 := identifyPrimaryDisorder ph paco2 hco3 r2.2
    let r4 := evaluateCompensation paco2 hco3 r3.2
    let r5 := anionGapStage values.na values.cl hco3 values.albumin r4.2
    let r6 := deltaRatioStage hco3 r5.2
    { results :=
        { step1 := step1, step2 := r2.1, step3 := r3.1, step4 := r4.1,
          step5 := r5.1, step6 := r6.1,
          finalInterpretation := generateFinalInterpretation none r6.2, error := none },
      state := r6.2 }

/-- The recognised measurement keys of a MeasurementSet. -/
def recognisedKeys : List String :=
  ["ph", "paco2", "hco3", "na", "cl", "albumin", "k", "pao2", "be", "sao2"]

/-- Projection of a caller-supplied key-value object onto the keys the engine
reads (property access on a JavaScript object: unknown keys are simply never
read). -/
def readValues (v : String → Option ℚ) : Values :=
  { ph := v "ph", paco2 := v "paco2", hco3 := v "hco3",
    na := v "na", cl := v "cl", albumin := v "albumin" }

/-- `analyze` on a raw key-value object. -/
def analyzeValues (pow10 : ℚ → ℚ) (v : String → Option ℚ) : AnalysisResult :=
  analyze pow10 (readValues v)

/-- Concrete stand-in for the transcendental `Math.pow(10, -ph) * 1e9` used in
closed-scenario evaluations; step 1 writes no state, so no claim depends on
its values. -/
def measuredHStub : ℚ → ℚ := fun _ => 0

/-! ## Stage characterizations

Small lemmas describing the state written by each stage; the claim proofs are
assembled from these. -/

/-- The pH classification of step 2 as a function. -/
def phClass (ph : ℚ) : String :=
  if ph < 7.35 then "acidemia" else if ph > 7.45 then "alkalemia" else "normal"

/-- The decision table of step 3 as a function of the classification. -/
def primaryLabel (status : Option String) (paco2 hco3 : ℚ) : String :=
  if status = some "acidemia" then
    if paco2 > 45 then "respiratory acidosis"
    else if hco3 < 22 then "metabolic acidosis"
    else "mixed acidemia"
  else if status = some "alkalemia" then
    if paco2 < 35 then "respiratory alkalosis"
    else if hco3 > 26 then "metabolic alkalosis"
    else "mixed alkalemia"
  else
    if paco2 > 45 ∧ hco3 > 26 then "mixed compensated resp acid + met alk"
    else if paco2 < 35 ∧ hco3 < 22 then "mixed compensated resp alk + met acid"
    else if paco2 ≥ 35 ∧ paco2 ≤ 45 ∧ hco3 ≥ 22 ∧ hco3 ≤ 26 then "normal"
    else if paco2 > 45 ∨ hco3 > 26 then "compensated"
    else if paco2 < 35 ∨ hco3 < 22 then "compensated"
    else "normal"

theorem determineAcidemiaAlkalemia_snd (ph : ℚ) (s : AnalysisState) :
    (determineAcidemiaAlkalemia ph s).2 = { s with acidBaseStatus := some (phClass ph) } := by
  unfold determineAcidemiaAlkalemia phClass
  split_ifs <;> rfl

theorem identifyPrimaryDisorder_snd (ph paco2 hco3 : ℚ) (s : AnalysisState) :
    (identifyPrimaryDisorder ph paco2 hco3 s).2 =
      { s with primaryDisorder := some (primaryLabel s.acidBaseStatus paco2 hco3) } := by
  unfold identifyPrimaryDisorder primaryLabel
  split_ifs <;> rfl

theorem compSkip_metAcid : compSkip (some "metabolic acidosis") = false := by decide

theorem compSkip_metAlk : compSkip (some "metabolic alkalosis") = false := by decide

theorem compSkip_respAcid : compSkip (some "respiratory acidosis") = false := by decide

theorem compSkip_respAlk : compSkip (some "respiratory alkalosis") = false := by decide

theorem compSkip_mixedAcidemia : compSkip (some "mixed acidemia") = true := by decide

theorem compSkip_mixedAlkalemia : compSkip (some "mixed alkalemia") = true := by decide

theorem compSkip_mixedRaMa : compSkip (some "mixed compensated resp acid + met alk") = true := by
  decide

theorem compSkip_mixedRlMa : compSkip (some "mixed compensated resp alk + met acid") = true := by
  decide

theorem compSkip_normal : compSkip (some "normal") = true := by decide

theorem compSkip_compensated : compSkip (some "compensated") = true := by decide

theorem compSkip_none : compSkip none = true := by decide

/-- When the skip guard fires, `evaluateCompensation` leaves the state
untouched. -/
theorem evaluateCompensation_skip (paco2 hco3 : ℚ) (s : AnalysisState)
    (h : compSkip s.primaryDisorder = true) :
    (evaluateCompensation paco2 hco3 s).2 = s := by
  unfold evaluateCompensation
  rw [h, if_pos rfl]
  split <;> rfl

theorem evaluateCompensation_metAcid (paco2 hco3 : ℚ) (s : AnalysisState)
    (h : s.primaryDisorder = some "metabolic acidosis") :
    (evaluateCompensation paco2 hco3 s).2 =
      if |paco2 - (1.5 * hco3 + 8)| ≤ 2 then
        { s with expectedCompensationValue := some (1.5 * hco3 + 8),
                 compensationAssessment := some "appropriate" }
      else if paco2 < (1.5 * hco3 + 8) - 2 then
        { s with expectedCompensationValue := some (1.5 * hco3 + 8),
                 compensationAssessment := some "mixed",
                 additionalDisorders := s.additionalDisorders ++ ["respiratory alkalosis"] }
      else
        { s with expectedCompensationValue := some (1.5 * hco3 + 8),
                 compensationAssessment := some "mixed",
                 additionalDisorders := s.additionalDisorders ++ ["respiratory acidosis"] } := by
  simp only [evaluateCompensation, h, compSkip_metAcid, Bool.false_eq_true, if_false,
    Option.some.injEq, String.reduceEq, if_true, reduceCtorEq]

theorem evaluateCompensation_metAlk (paco2 hco3 : ℚ) (s : AnalysisState)
    (h : s.primaryDisorder = some "metabolic alkalosis") :
    (evaluateCompensation paco2 hco3 s).2 =
      if |paco2 - (40 + 0.6 * (hco3 - 24))| ≤ 5 then
        { s with expectedCompensationValue := some (40 + 0.6 * (hco3 - 24)),
                 compensationAssessment := some "appropriate" }
      else if paco2 < (40 + 0.6 * (hco3 - 24)) - 5 then
        { s with expectedCompensationValue := some (40 + 0.6 * (hco3 - 24)),
                 compensationAssessment := some "mixed",
                 additionalDisorders := s.additionalDisorders ++ ["respiratory alkalosis"] }
      else
        { s with expectedCompensationValue := some (40 + 0.6 * (hco3 - 24)),
                 compensationAssessment := some "mixed",
                 additionalDisorders := s.additionalDisorders ++ ["respiratory acidosis"] } := by
  simp only [evaluateCompensation, h, compSkip_metAlk, Bool.false_eq_true, if_false,
    Option.some.injEq, String.reduceEq, if_true, reduceCtorEq]

theorem evaluateCompensation_respAcid (paco2 hco3 : ℚ) (s : AnalysisState)
    (h : s.primaryDisorder = some "respiratory acidosis") :
    (evaluateCompensation paco2 hco3 s).2 =
      if |hco3 - (24 + (paco2 - 40) * 0.1)| < |hco3 - (24 + (paco2 - 40) * 0.35)| then
        respAssess hco3 (24 + (paco2 - 40) * 0.1)
          { s with compensationType := some "acute",
                   expectedCompensationValue := some (24 + (paco2 - 40) * 0.1) }
      else
        respAssess hco3 (24 + (paco2 - 40) * 0.35)
          { s with compensationType := some "chronic",
                   expectedCompensationValue := some (24 + (paco2 - 40) * 0.35) } := by
  simp only [evaluateCompensation, h, compSkip_respAcid, Bool.false_eq_true, if_false,
    Option.some.injEq, String.reduceEq, if_true, reduceCtorEq]
  split_ifs <;> rfl

theorem evaluateCompensation_respAlk (paco2 hco3 : ℚ) (s : AnalysisState)
    (h : s.primaryDisorder = some "respiratory alkalosis") :
    (evaluateCompensation paco2 hco3 s).2 =
      if |hco3 - (24 + (paco2 - 40) * 0.2)| < |hco3 - (24 + (paco2 - 40) * 0.5)| then
        respAssess hco3 (24 + (paco2 - 40) * 0.2)
          { s with compensationType := some "acute",
                   expectedCompensationValue := some (24 + (paco2 - 40) * 0.2) }
      else
        respAssess hco3 (24 + (paco2 - 40) * 0.5)
          { s with compensationType := some "chronic",
                   expectedCompensationValue := some (24 + (paco2 - 40) * 0.5) } := by
  simp only [evaluateCompensation, h, compSkip_respAlk, Bool.false_eq_true, if_false,
    Option.some.injEq, String.reduceEq, if_true, reduceCtorEq]
  split_ifs <;> rfl

theorem calculateAnionGap_snd (na cl hco3 : ℚ) (albumin : Option ℚ) (s : AnalysisState) :
    (calculateAnionGap na cl hco3 albumin s).2 =
      (if correctedAG (na - (cl + hco3)) albumin > 12 then
        if s.primaryDisorder ≠ some "metabolic acidosis" ∧
            "high anion gap metabolic acidosis" ∉ s.additionalDisorders then
          { s with anionGap := some (na - (cl + hco3)),
                   correctedAnionGap := some (correctedAG (na - (cl + hco3)) albumin),
                   additionalDisorders :=
                     s.additionalDisorders ++ ["high anion gap metabolic acidosis"] }
        else
          { s with anionGap := some (na - (cl + hco3)),
                   correctedAnionGap := some (correctedAG (na - (cl + hco3)) albumin) }
      else
        { s with anionGap := some (na - (cl + hco3)),
                 correctedAnionGap := some (correctedAG (na - (cl + hco3)) albumin) }) := by
  simp only [calculateAnionGap]
  split_ifs <;> rfl

theorem evaluateDeltaRatioStep_snd (ag hco3 : ℚ) (albumin : Option ℚ) (s : AnalysisState) :
    (evaluateDeltaRatioStep ag hco3 albumin s).2 =
      (if 24 - hco3 = 0 then
        { s with deltaRatioAssessment := some "concurrent met alk likely (delta HCO3 is zero)" }
      else if 24 - hco3 < 0 then
        { s with deltaRatioAssessment := some "concurrent met alk likely (delta HCO3 negative)" }
      else if (ag - normalAGadj albumin) / (24 - hco3) < 1 then
        if "normal anion gap metabolic acidosis" ∈ s.additionalDisorders then
          { s with deltaRatioValue := some ((ag - normalAGadj albumin) / (24 - hco3)),
                   deltaRatioAssessment := some "concurrent NAGMA" }
        else
          { s with deltaRatioValue := some ((ag - normalAGadj albumin) / (24 - hco3)),
                   deltaRatioAssessment := some "concurrent NAGMA",
                   additionalDisorders :=
                     s.additionalDisorders ++ ["normal anion gap metabolic acidosis"] }
      else if (ag - normalAGadj albumin) / (24 - hco3) > 2 then
        if "metabolic alkalosis" ∈ s.additionalDisorders then
          { s with deltaRatioValue := some ((ag - normalAGadj albumin) / (24 - hco3)),
                   deltaRatioAssessment := some "concurrent met alk" }
        else
          { s with deltaRatioValue := some ((ag - normalAGadj albumin) / (24 - hco3)),
                   deltaRatioAssessment := some "concurrent met alk",
                   additionalDisorders := s.additionalDisorders ++ ["metabolic alkalosis"] }
      else
        { s with deltaRatioValue := some ((ag - normalAGadj albumin) / (24 - hco3)),
                 deltaRatioAssessment := some "pure HAGMA" }) := by
  simp only [evaluateDeltaRatioStep]
  split_ifs <;> rfl

/-- Fields the respiratory adequacy block never writes. -/
theorem respAssess_preserved (hco3 e : ℚ) (s1 : AnalysisState) :
    (respAssess hco3 e s1).acidBaseStatus = s1.acidBaseStatus ∧
    (respAssess hco3 e s1).primaryDisorder = s1.primaryDisorder ∧
    (respAssess hco3 e s1).compensationType = s1.compensationType ∧
    (respAssess hco3 e s1).expectedCompensationValue = s1.expectedCompensationValue ∧
    (respAssess hco3 e s1).anionGap = s1.anionGap ∧
    (respAssess hco3 e s1).correctedAnionGap = s1.correctedAnionGap ∧
    (respAssess hco3 e s1).deltaRatioValue = s1.deltaRatioValue ∧
    (respAssess hco3 e s1).deltaRatioAssessment = s1.deltaRatioAssessment := by
  unfold respAssess
  split_ifs <;> exact ⟨rfl, rfl, rfl, rfl, rfl, rfl, rfl, rfl⟩

/-- The respiratory adequacy block only ever appends to `additionalDisorders`. -/
theorem respAssess_addAppend (hco3 e : ℚ) (s1 : AnalysisState) :
    ∃ t, (respAssess hco3 e s1).additionalDisorders = s1.additionalDisorders ++ t := by
  unfold respAssess
  split_ifs <;>
    first
      | exact ⟨[], (List.append_nil _).symm⟩
      | exact ⟨["metabolic acidosis"], rfl⟩
      | exact ⟨["metabolic alkalosis"], rfl⟩

/-- When the primary disorder is none of the four pure categories and the skip
guard did not fire, step 4 leaves the state untouched. -/
theorem evaluateCompensation_other (paco2 hco3 : ℚ) (s : AnalysisState)
    (h0 : compSkip s.primaryDisorder = false)
    (h1 : s.primaryDisorder ≠ some "metabolic acidosis")
    (h2 : s.primaryDisorder ≠ some "metabolic alkalosis")
    (h3 : s.primaryDisorder ≠ some "respiratory acidosis")
    (h4 : s.primaryDisorder ≠ some "respiratory alkalosis") :
    (evaluateCompensation paco2 hco3 s).2 = s := by
  unfold evaluateCompensation
  rw [h0]
  simp only [Bool.false_eq_true, if_false, if_neg h1, if_neg h2, if_neg h3, if_neg h4]

/-- Fields that step 4 never writes. -/
theorem evaluateCompensation_preserved (paco2 hco3 : ℚ) (s : AnalysisState) :
    (evaluateCompensation paco2 hco3 s).2.acidBaseStatus = s.acidBaseStatus ∧
    (evaluateCompensation paco2 hco3 s).2.primaryDisorder = s.primaryDisorder ∧
    (evaluateCompensation paco2 hco3 s).2.anionGap = s.anionGap ∧
    (evaluateCompensation paco2 hco3 s).2.correctedAnionGap = s.correctedAnionGap ∧
    (evaluateCompensation paco2 hco3 s).2.deltaRatioValue = s.deltaRatioValue ∧
    (evaluateCompensation paco2 hco3 s).2.deltaRatioAssessment = s.deltaRatioAssessment := by
  by_cases h0 : compSkip s.primaryDisorder = true
  · rw [evaluateCompensation_skip paco2 hco3 s h0]
    exact ⟨rfl, rfl, rfl, rfl, rfl, rfl⟩
  · rw [Bool.not_eq_true] at h0
    by_cases h1 : s.primaryDisorder = some "metabolic acidosis"
    · rw [evaluateCompensation_metAcid paco2 hco3 s h1]
      split_ifs <;> exact ⟨rfl, rfl, rfl, rfl, rfl, rfl⟩
    · by_cases h2 : s.primaryDisorder = some "metabolic alkalosis"
      · rw [evaluateCompensation_metAlk paco2 hco3 s h2]
        split_ifs <;> exact ⟨rfl, rfl, rfl, rfl, rfl, rfl⟩
      · by_cases h3 : s.primaryDisorder = some "respiratory acidosis"
        · rw [evaluateCompensation_respAcid paco2 hco3 s h3]
          split_ifs <;>
            exact ⟨(respAssess_preserved _ _ _).1, (respAssess_preserved _ _ _).2.1,
              (respAssess_preserved _ _ _).2.2.2.2.1, (respAssess_preserved _ _ _).2.2.2.2.2.1,
              (respAssess_preserved _ _ _).2.2.2.2.2.2.1,
              (respAssess_preserved _ _ _).2.2.2.2.2.2.2⟩
        · by_cases h4 : s.primaryDisorder = some "respiratory alkalosis"
          · rw [evaluateCompensation_respAlk paco2 hco3 s h4]
            split_ifs <;>
              exact ⟨(respAssess_preserved _ _ _).1, (respAssess_preserved _ _ _).2.1,
                (respAssess_preserved _ _ _).2.2.2.2.1, (respAssess_preserved _ _ _).2.2.2.2.2.1,
                (respAssess_preserved _ _ _).2.2.2.2.2.2.1,
                (respAssess_preserved _ _ _).2.2.2.2.2.2.2⟩
          · rw [evaluateCompensation_other paco2 hco3 s h0 h1 h2 h3 h4]
            exact ⟨rfl, rfl, rfl, rfl, rfl, rfl⟩

/-- Step 4 only ever appends to `additionalDisorders`. -/
theorem evaluateCompensation_addAppend (paco2 hco3 : ℚ) (s : AnalysisState) :
    ∃ t, (evaluateCompensation paco2 hco3 s).2.additionalDisorders =
      s.additionalDisorders ++ t := by
  by_cases h0 : compSkip s.primaryDisorder = true
  · rw [evaluateCompensation_skip paco2 hco3 s h0]
    exact ⟨[], (List.append_nil _).symm⟩
  · rw [Bool.not_eq_true] at h0
    by_cases h1 : s.primaryDisorder = some "metabolic acidosis"
    · rw [evaluateCompensation_metAcid paco2 hco3 s h1]
      split_ifs <;>
        first
          | exact ⟨[], (List.append_nil _).symm⟩
          | exact ⟨["respiratory alkalosis"], rfl⟩
          | exact ⟨["respiratory acidosis"], rfl⟩
    · by_cases h2 : s.primaryDisorder = some "metabolic alkalosis"
      · rw [evaluateCompensation_metAlk paco2 hco3 s h2]
        split_ifs <;>
          first
            | exact ⟨[], (List.append_nil _).symm⟩
            | exact ⟨["respiratory alkalosis"], rfl⟩
            | exact ⟨["respiratory acidosis"], rfl⟩
      · by_cases h3 : s.primaryDisorder = some "respiratory acidosis"
        · rw [evaluateCompensation_respAcid paco2 hco3 s h3]
          split_ifs <;> exact respAssess_addAppend _ _ _
        · by_cases h4 : s.primaryDisorder = some "respiratory alkalosis"
          · rw [evaluateCompensation_respAlk paco2 hco3 s h4]
            split_ifs <;> exact respAssess_addAppend _ _ _
          · rw [evaluateCompensation_other paco2 hco3 s h0 h1 h2 h3 h4]
            exact ⟨[], (List.append_nil _).symm⟩

theorem anionGapStage_some (naV clV hco3 : ℚ) (albumin : Option ℚ) (s : AnalysisState) :
    anionGapStage (some naV) (some clV) hco3 albumin s =
      calculateAnionGap naV clV hco3 albumin s := rfl

/-- Fields that step 5 never writes. -/
theorem anionGapStage_preserved (na cl : Option ℚ) (hco3 : ℚ) (albumin : Option ℚ)
    (s : AnalysisState) :
    (anionGapStage na cl hco3 albumin s).2.acidBaseStatus = s.acidBaseStatus ∧
    (anionGapStage na cl hco3 albumin s).2.primaryDisorder = s.primaryDisorder ∧
    (anionGapStage na cl hco3 albumin s).2.compensationType = s.compensationType ∧
    (anionGapStage na cl hco3 albumin s).2.expectedCompensationValue =
      s.expectedCompensationValue ∧
    (anionGapStage na cl hco3 albumin s).2.compensationAssessment = s.compensationAssessment ∧
    (anionGapStage na cl hco3 albumin s).2.deltaRatioValue = s.deltaRatioValue ∧
    (anionGapStage na cl hco3 albumin s).2.deltaRatioAssessment = s.deltaRatioAssessment := by
  cases na <;> cases cl
  case some.some naV clV =>
    rw [anionGapStage_some, calculateAnionGap_snd]
    split_ifs <;> exact ⟨rfl, rfl, rfl, rfl, rfl, rfl, rfl⟩
  all_goals exact ⟨rfl, rfl, rfl, rfl, rfl, rfl, rfl⟩

/-- Step 5 only ever appends to `additionalDisorders`. -/
theorem anionGapStage_addAppend (na cl : Option ℚ) (hco3 : ℚ) (albumin : Option ℚ)
    (s : AnalysisState) :
    ∃ t, (anionGapStage na cl hco3 albumin s).2.additionalDisorders =
      s.additionalDisorders ++ t := by
  cases na <;> cases cl
  case some.some naV clV =>
    rw [anionGapStage_some, calculateAnionGap_snd]
    split_ifs <;>
      first
        | exact ⟨[], (List.append_nil _).symm⟩
        | exact ⟨["high anion gap metabolic acidosis"], rfl⟩
  all_goals exact ⟨[], (List.append_nil _).symm⟩

/-- Step 5's only push is guarded by a membership check, so it keeps
`additionalDisorders` duplicate-free. -/
theorem anionGapStage_nodup (na cl : Option ℚ) (hco3 : ℚ) (albumin : Option ℚ)
    (s : AnalysisState) (h : s.additionalDisorders.Nodup) :
    (anionGapStage na cl hco3 albumin s).2.additionalDisorders.Nodup := by
  cases na <;> cases cl
  case some.some naV clV =>
    rw [anionGapStage_some, calculateAnionGap_snd]
    split_ifs with h1 h2
    · simpa [List.nodup_append, h] using h2.2
    · exact h
    · exact h
  all_goals exact h

/-- Fields the step-6 guard chain never writes. -/
theorem deltaRatioDispatch_preserved (agToCheck hco3 : ℚ) (s : AnalysisState) :
    (deltaRatioDispatch agToCheck hco3 s).2.acidBaseStatus = s.acidBaseStatus ∧
    (deltaRatioDispatch agToCheck hco3 s).2.primaryDisorder = s.primaryDisorder ∧
    (deltaRatioDispatch agToCheck hco3 s).2.compensationType = s.compensationType ∧
    (deltaRatioDispatch agToCheck hco3 s).2.expectedCompensationValue =
      s.expectedCompensationValue ∧
    (deltaRatioDispatch agToCheck hco3 s).2.compensationAssessment =
      s.compensationAssessment ∧
    (deltaRatioDispatch agToCheck hco3 s).2.anionGap = s.anionGap ∧
    (deltaRatioDispatch agToCheck hco3 s).2.correctedAnionGap = s.correctedAnionGap := by
  unfold deltaRatioDispatch
  split_ifs with h1 h2
  · rw [evaluateDeltaRatioStep_snd]
    split_ifs <;> exact ⟨rfl, rfl, rfl, rfl, rfl, rfl, rfl⟩
  · exact ⟨rfl, rfl, rfl, rfl, rfl, rfl, rfl⟩
  · exact ⟨rfl, rfl, rfl, rfl, rfl, rfl, rfl⟩

/-- The step-6 guard chain only ever appends to `additionalDisorders`. -/
theorem deltaRatioDispatch_addAppend (agToCheck hco3 : ℚ) (s : AnalysisState) :
    ∃ t, (deltaRatioDispatch agToCheck hco3 s).2.additionalDisorders =
      s.additionalDisorders ++ t := by
  unfold deltaRatioDispatch
  split_ifs with h1 h2
  · rw [evaluateDeltaRatioStep_snd]
    split_ifs <;>
      first
        | exact ⟨[], (List.append_nil _).symm⟩
        | exact ⟨["normal anion gap metabolic acidosis"], rfl⟩
        | exact ⟨["metabolic alkalosis"], rfl⟩
  · exact ⟨[], (List.append_nil _).symm⟩
  · exact ⟨[], (List.append_nil _).symm⟩

/-- The step-6 pushes are membership-guarded, so the guard chain keeps
`additionalDisorders` duplicate-free. -/
theorem deltaRatioDispatch_nodup (agToCheck hco3 : ℚ) (s : AnalysisState)
    (h : s.additionalDisorders.Nodup) :
    (deltaRatioDispatch agToCheck hco3 s).2.additionalDisorders.Nodup := by
  unfold deltaRatioDispatch
  split_ifs with h1 h2
  · rw [evaluateDeltaRatioStep_snd]
    split_ifs <;> first | exact h | simp_all [List.nodup_append]
  · exact h
  · exact h

/-- Fields that step 6 never writes. -/
theorem deltaRatioStage_preserved (hco3 : ℚ) (s : AnalysisState) :
    (deltaRatioStage hco3 s).2.acidBaseStatus = s.acidBaseStatus ∧
    (deltaRatioStage hco3 s).2.primaryDisorder = s.primaryDisorder ∧
    (deltaRatioStage hco3 s).2.compensationType = s.compensationType ∧
    (deltaRatioStage hco3 s).2.expectedCompensationValue = s.expectedCompensationValue ∧
    (deltaRatioStage hco3 s).2.compensationAssessment = s.compensationAssessment ∧
    (deltaRatioStage hco3 s).2.anionGap = s.anionGap ∧
    (deltaRatioStage hco3 s).2.correctedAnionGap = s.correctedAnionGap := by
  unfold deltaRatioStage
  cases hc : s.correctedAnionGap
  case some v => simpa only [hc] using deltaRatioDispatch_preserved v hco3 s
  case none =>
    cases ha : s.anionGap
    case some v => simpa only [hc, ha] using deltaRatioDispatch_preserved v hco3 s
    case none => split_ifs <;> exact ⟨rfl, rfl, rfl, rfl, rfl, ha, hc⟩

/-- Step 6 only ever appends to `additionalDisorders`. -/
theorem deltaRatioStage_addAppend (hco3 : ℚ) (s : AnalysisState) :
    ∃ t, (deltaRatioStage hco3 s).2.additionalDisorders = s.additionalDisorders ++ t := by
  unfold deltaRatioStage
  cases hc : s.correctedAnionGap
  case some v => exact deltaRatioDispatch_addAppend v hco3 s
  case none =>
    cases ha : s.anionGap
    case some v => exact deltaRatioDispatch_addAppend v hco3 s
    case none => split_ifs <;> exact ⟨[], (List.append_nil _).symm⟩

/-- Step 6 keeps `additionalDisorders` duplicate-free. -/
theorem deltaRatioStage_nodup (hco3 : ℚ) (s : AnalysisState)
    (h : s.additionalDisorders.Nodup) :
    (deltaRatioStage hco3 s).2.additionalDisorders.Nodup := by
  unfold deltaRatioStage
  cases hc : s.correctedAnionGap
  case some v => exact deltaRatioDispatch_nodup v hco3 s h
  case none =>
    cases ha : s.anionGap
    case some v => exact deltaRatioDispatch_nodup v hco3 s h
    case none => split_ifs <;> exact h

/-- The state after steps 2-3 on a validated input. -/
def stepThreeState (ph paco2 hco3 : ℚ) : AnalysisState :=
  { resetState with
      acidBaseStatus := some (phClass ph),
      primaryDisorder := some (primaryLabel (some (phClass ph)) paco2 hco3) }

/-- The state after step 4 on a validated input. -/
def stepFourState (ph paco2 hco3 : ℚ) : AnalysisState :=
  (evaluateCompensation paco2 hco3 (stepThreeState ph paco2 hco3)).2

/-- On a validated input, the returned state is the composition of the
stage-state transformers. -/
theorem analyze_ok_state (pow10 : ℚ → ℚ) (v : Values) (ph paco2 hco3 : ℚ)
    (h : validateInputs v = .ok (ph, paco2, hco3)) :
    (analyze pow10 v).state =
      (deltaRatioStage hco3
        (anionGapStage v.na v.cl hco3 v.albumin (stepFourState ph paco2 hco3)).2).2 := by
  simp only [analyze, h, determineAcidemiaAlkalemia_snd, identifyPrimaryDisorder_snd,
    stepFourState, stepThreeState]

/-- On a validated input no error is reported. -/
theorem analyze_ok_error (pow10 : ℚ → ℚ) (v : Values) (ph paco2 hco3 : ℚ)
    (h : validateInputs v = .ok (ph, paco2, hco3)) :
    (analyze pow10 v).results.error = none := by
  simp only [analyze, h]

/-- On a rejected input, `analyze` returns the reset results carrying only the
validation error, and the untouched reset state. -/
theorem analyze_fail (pow10 : ℚ → ℚ) (v : Values) (e : String)
    (h : validateInputs v = .error e) :
    analyze pow10 v =
      { results := { resetResults with error := some e }, state := resetState } := by
  simp only [analyze, h]

/-- The final `acidBaseStatus` is the step-2 classification of the pH. -/
theorem analyze_acidBaseStatus (pow10 : ℚ → ℚ) (v : Values) (ph paco2 hco3 : ℚ)
    (h : validateInputs v = .ok (ph, paco2, hco3)) :
    (analyze pow10 v).state.acidBaseStatus = some (phClass ph) := by
  rw [analyze_ok_state pow10 v ph paco2 hco3 h, (deltaRatioStage_preserved _ _).1,
    (anionGapStage_preserved _ _ _ _ _).1, stepFourState,
    (evaluateCompensation_preserved _ _ _).1]
  rfl

/-- The final `primaryDisorder` is the step-3 table entry. -/
theorem analyze_primaryDisorder (pow10 : ℚ → ℚ) (v : Values) (ph paco2 hco3 : ℚ)
    (h : validateInputs v = .ok (ph, paco2, hco3)) :
    (analyze pow10 v).state.primaryDisorder =
      some (primaryLabel (some (phClass ph)) paco2 hco3) := by
  rw [analyze_ok_state pow10 v ph paco2 hco3 h, (deltaRatioStage_preserved _ _).2.1,
    (anionGapStage_preserved _ _ _ _ _).2.1, stepFourState,
    (evaluateCompensation_preserved _ _ _).2.1]
  rfl

/-- The final compensation fields are exactly those written by step 4. -/
theorem analyze_compensationFields (pow10 : ℚ → ℚ) (v : Values) (ph paco2 hco3 : ℚ)
    (h : validateInputs v = .ok (ph, paco2, hco3)) :
    (analyze pow10 v).state.compensationType = (stepFourState ph paco2 hco3).compensationType ∧
    (analyze pow10 v).state.expectedCompensationValue =
      (stepFourState ph paco2 hco3).expectedCompensationValue ∧
    (analyze pow10 v).state.compensationAssessment =
      (stepFourState ph paco2 hco3).compensationAssessment := by
  rw [analyze_ok_state pow10 v ph paco2 hco3 h]
  exact ⟨((deltaRatioStage_preserved _ _).2.2.1).trans (anionGapStage_preserved _ _ _ _ _).2.2.1,
    ((deltaRatioStage_preserved _ _).2.2.2.1).trans
      (anionGapStage_preserved _ _ _ _ _).2.2.2.1,
    ((deltaRatioStage_preserved _ _).2.2.2.2.1).trans
      (anionGapStage_preserved _ _ _ _ _).2.2.2.2.1⟩

/-- The final anion-gap fields are exactly those written by step 5. -/
theorem analyze_anionGapFields (pow10 : ℚ → ℚ) (v : Values) (ph paco2 hco3 : ℚ)
    (h : validateInputs v = .ok (ph, paco2, hco3)) :
    (analyze pow10 v).state.anionGap =
      (anionGapStage v.na v.cl hco3 v.albumin (stepFourState ph paco2 hco3)).2.anionGap ∧
    (analyze pow10 v).state.correctedAnionGap =
      (anionGapStage v.na v.cl hco3 v.albumin (stepFourState ph paco2 hco3)).2.correctedAnionGap := by
  rw [analyze_ok_state pow10 v ph paco2 hco3 h]
  exact ⟨(deltaRatioStage_preserved _ _).2.2.2.2.2.1,
    (deltaRatioStage_preserved _ _).2.2.2.2.2.2⟩

/-! ## Claims -/

/-- C8: for every input passing validation, `acidBaseStatus` in the returned
state is a pure function of ph alone and exactly one of acidemia / alkalemia
/ normal: acidemia iff ph < 7.35, alkalemia iff ph > 7.45, and normal
otherwise — so the boundary values 7.35 and 7.45 classify as normal. -/
theorem c8_acid_base_status (pow10 : ℚ → ℚ) (v : Values) (ph paco2 hco3 : ℚ)
    (h : validateInputs v = .ok (ph, paco2, hco3)) :
    (analyze pow10 v).state.acidBaseStatus =
      some (if ph < 7.35 then "acidemia" else if ph > 7.45 then "alkalemia" else "normal") ∧
    ((analyze pow10 v).state.acidBaseStatus = some "acidemia" ↔ ph < 7.35) ∧
    ((analyze pow10 v).state.acidBaseStatus = some "alkalemia" ↔ ph > 7.45) ∧
    ((analyze pow10 v).state.acidBaseStatus = some "normal" ↔ 7.35 ≤ ph ∧ ph ≤ 7.45) := by
  rw [analyze_acidBaseStatus pow10 v ph paco2 hco3 h]
  unfold phClass
  split_ifs with h1 h2
  · refine ⟨rfl, ⟨fun _ => h1, fun _ => rfl⟩, ?_, ?_⟩
    · constructor
      · intro heq; simp at heq
      · intro hgt; exfalso; linarith
    · constructor
      · intro heq; simp at heq
      · intro hh; exfalso; linarith [hh.1]
  · refine ⟨rfl, ?_, ⟨fun _ => h2, fun _ => rfl⟩, ?_⟩
    · constructor
      · intro heq; simp at heq
      · intro hlt; exact absurd hlt h1
    · constructor
      · intro heq; simp at heq
      · intro hh; exfalso; linarith [hh.2]
  · refine ⟨rfl, ?_, ?_, ?_⟩
    · constructor
      · intro heq; simp at heq
      · intro hlt; exact absurd hlt h1
    · constructor
      · intro heq; simp at heq
      · intro hgt; exact absurd hgt h2
    · exact ⟨fun _ => ⟨le_of_not_lt h1, le_of_not_lt h2⟩, fun _ => rfl⟩

/-- Witness for C8 at the boundary inputs ph = 7.35 and ph = 7.45. -/
theorem c8_acid_base_status_witness :
    (analyze measuredHStub
      { ph := some 7.35, paco2 := some 40, hco3 := some 24,
        na := none, cl := none, albumin := none }).state.acidBaseStatus = some "normal" ∧
    (analyze measuredHStub
      { ph := some 7.45, paco2 := some 40, hco3 := some 24,
        na := none, cl := none, albumin := none }).state.acidBaseStatus = some "normal" := by
  constructor
  · exact (c8_acid_base_status measuredHStub _ 7.35 40 24
      (by norm_num [validateInputs])).2.2.2.mpr (by norm_num)
  · exact (c8_acid_base_status measuredHStub _ 7.45 40 24
      (by norm_num [validateInputs])).2.2.2.mpr (by norm_num)

/-- On a validated input, `finalInterpretation` is the synthesizer applied to
the returned state (with no error recorded). -/
theorem analyze_ok_finalInterpretation (pow10 : ℚ → ℚ) (v : Values) (ph paco2 hco3 : ℚ)
    (h : validateInputs v = .ok (ph, paco2, hco3)) :
    (analyze pow10 v).results.finalInterpretation =
      generateFinalInterpretation none ((analyze pow10 v).state) := by
  simp only [analyze, h]

/-- When the primary disorder is the `normal` category, the synthesizer
returns its fixed normal text. -/
theorem generateFinalInterpretation_normal (s : AnalysisState)
    (hp : s.primaryDisorder = some "normal") :
    generateFinalInterpretation none s = "Normal acid-base status." := by
  unfold generateFinalInterpretation
  rw [hp]
  simp

/-- C4: for every input passing validation, `primaryDisorder` follows the
step-3 decision table over the pH classification, paco2 and hco3 — under
acidemia: respiratory acidosis / metabolic acidosis / mixed acidemia; under
alkalemia: respiratory alkalosis / metabolic alkalosis / mixed alkalemia;
under a normal pH: the two mixed compensated categories, normal, or the
generic compensated label for a single abnormal value — and the scenario
{ph 7.40, paco2 40, hco3 24} yields primaryDisorder `normal` with
finalInterpretation "Normal acid-base status.". -/
theorem c4_primary_disorder_table :
    (∀ (pow10 : ℚ → ℚ) (v : Values) (ph paco2 hco3 : ℚ),
      validateInputs v = .ok (ph, paco2, hco3) →
      ((ph < 7.35 →
        (paco2 > 45 →
          (analyze pow10 v).state.primaryDisorder = some "respiratory acidosis") ∧
        (paco2 ≤ 45 → hco3 < 22 →
          (analyze pow10 v).state.primaryDisorder = some "metabolic acidosis") ∧
        (paco2 ≤ 45 → 22 ≤ hco3 →
          (analyze pow10 v).state.primaryDisorder = some "mixed acidemia")) ∧
      (ph > 7.45 →
        (paco2 < 35 →
          (analyze pow10 v).state.primaryDisorder = some "respiratory alkalosis") ∧
        (35 ≤ paco2 → hco3 > 26 →
          (analyze pow10 v).state.primaryDisorder = some "metabolic alkalosis") ∧
        (35 ≤ paco2 → hco3 ≤ 26 →
          (analyze pow10 v).state.primaryDisorder = some "mixed alkalemia")) ∧
      (7.35 ≤ ph → ph ≤ 7.45 →
        (paco2 > 45 → hco3 > 26 →
          (analyze pow10 v).state.primaryDisorder =
            some "mixed compensated resp acid + met alk") ∧
        (paco2 < 35 → hco3 < 22 →
          (analyze pow10 v).state.primaryDisorder =
            some "mixed compensated resp alk + met acid") ∧
        (35 ≤ paco2 → paco2 ≤ 45 → 22 ≤ hco3 → hco3 ≤ 26 →
          (analyze pow10 v).state.primaryDisorder = some "normal") ∧
        (((paco2 > 45 ∨ paco2 < 35) ∧ 22 ≤ hco3 ∧ hco3 ≤ 26) ∨
            (35 ≤ paco2 ∧ paco2 ≤ 45 ∧ (hco3 > 26 ∨ hco3 < 22)) →
          (analyze pow10 v).state.primaryDisorder = some "compensated")))) ∧
    (∀ pow10 : ℚ → ℚ,
      (analyze pow10
        { ph := some 7.40, paco2 := some 40, hco3 := some 24,
          na := none, cl := none, albumin := none }).state.primaryDisorder = some "normal" ∧
      (analyze pow10
        { ph := some 7.40, paco2 := some 40, hco3 := some 24,
          na := none, cl := none, albumin := none }).results.finalInterpretation =
        "Normal acid-base status.") := by
  constructor
  · intro pow10 v ph paco2 hco3 h
    rw [analyze_primaryDisorder pow10 v ph paco2 hco3 h]
    refine ⟨fun hph => ⟨?_, ?_, ?_⟩, fun hph => ⟨?_, ?_, ?_⟩,
      fun hph1 hph2 => ⟨?_, ?_, ?_, ?_⟩⟩
    · intro hpa
      simp [primaryLabel, phClass, hph, hpa]
    · intro hpa hhc
      simp [primaryLabel, phClass, hph, not_lt.mpr hpa, hhc]
    · intro hpa hhc
      simp [primaryLabel, phClass, hph, not_lt.mpr hpa, not_lt.mpr hhc]
    · intro hpa
      have hA : ¬ ph < 7.35 := by linarith
      simp [primaryLabel, phClass, hA, hph, hpa]
    · intro hpa hhc
      have hA : ¬ ph < 7.35 := by linarith
      simp [primaryLabel, phClass, hA, hph, not_lt.mpr hpa, hhc]
    · intro hpa hhc
      have hA : ¬ ph < 7.35 := by linarith
      simp [primaryLabel, phClass, hA, hph, not_lt.mpr hpa, not_lt.mpr hhc]
    · intro hpa hhc
      simp [primaryLabel, phClass, not_lt.mpr hph1, not_lt.mpr hph2, hpa, hhc]
    · intro hpa hhc
      have hA : ¬ 45 < paco2 := by linarith
      simp [primaryLabel, phClass, not_lt.mpr hph1, not_lt.mpr hph2, hA, hpa, hhc]
    · intro h35 h45 h22 h26
      simp [primaryLabel, phClass, not_lt.mpr hph1, not_lt.mpr hph2, not_lt.mpr h45,
        not_lt.mpr h35, not_lt.mpr h26, not_lt.mpr h22, h35, h45, h22, h26]
    · intro hcase
      rcases hcase with ⟨hp, h22, h26⟩ | ⟨h35, h45, hh⟩
      · rcases hp with hgt | hlt
        · simp [primaryLabel, phClass, not_lt.mpr hph1, not_lt.mpr hph2, hgt,
            not_le.mpr hgt, not_lt.mpr h26, not_lt.mpr h22]
        · have hA : ¬ 45 < paco2 := by linarith
          simp [primaryLabel, phClass, not_lt.mpr hph1, not_lt.mpr hph2, hA, hlt,
            not_le.mpr hlt, not_lt.mpr h26, not_lt.mpr h22]
      · rcases hh with hgt | hlt
        · simp [primaryLabel, phClass, not_lt.mpr hph1, not_lt.mpr hph2,
            not_lt.mpr h45, not_lt.mpr h35, hgt, not_le.mpr hgt, h35, h45]
        · have hC : ¬ 26 < hco3 := by linarith
          simp [primaryLabel, phClass, not_lt.mpr hph1, not_lt.mpr hph2,
            not_lt.mpr h45, not_lt.mpr h35, hC, hlt, not_le.mpr hlt, h35, h45]
  · intro pow10
    have hvalB : validateInputs
        { ph := some 7.40, paco2 := some 40, hco3 := some 24,
          na := none, cl := none, albumin := none } = .ok (7.40, 40, 24) := by
      norm_num [validateInputs]
    have hst : (analyze pow10
        { ph := some 7.40, paco2 := some 40, hco3 := some 24,
          na := none, cl := none, albumin := none }).state.primaryDisorder = some "normal" := by
      rw [analyze_primaryDisorder pow10 _ 7.40 40 24 hvalB]
      norm_num [primaryLabel, phClass, Option.some.injEq]
      simp
    refine ⟨hst, ?_⟩
    rw [analyze_ok_finalInterpretation pow10 _ 7.40 40 24 hvalB,
      generateFinalInterpretation_normal _ hst]

/-- Witness for C4 at two concrete inputs (spec scenarios A-direction and C). -/
theorem c4_primary_disorder_table_witness :
    (analyze measuredHStub
      { ph := some 7.30, paco2 := some 60, hco3 := some 20,
        na := none, cl := none, albumin := none }).state.primaryDisorder =
      some "respiratory acidosis" ∧
    (analyze measuredHStub
      { ph := some 7.50, paco2 := some 30, hco3 := some 24,
        na := none, cl := none, albumin := none }).state.primaryDisorder =
      some "respiratory alkalosis" := by
  constructor
  · exact ((c4_primary_disorder_table.1 measuredHStub _ 7.30 60 20
      (by norm_num [validateInputs])).1 (by norm_num)).1 (by norm_num)
  · exact ((c4_primary_disorder_table.1 measuredHStub _ 7.50 30 24
      (by norm_num [validateInputs])).2.1 (by norm_num)).1 (by norm_num)

/-- Evaluation form of the absolute value on `ℚ`. -/
theorem qabs_eval (a : ℚ) : |a| = if a < 0 then -a else a := by
  split_ifs with h
  · exact abs_of_neg h
  · exact abs_of_nonneg (le_of_not_lt h)

/-- C6: whenever the primary disorder is metabolic acidosis, the expected
compensation value is Winter's formula `1.5·hco3 + 8` and adequacy is judged
with tolerance ±2 mmHg against the measured paco2; for the scenario
{ph 7.25, paco2 30, hco3 13} the expected value is 27.5, the measured 30 lies
above the band, the assessment is `mixed`, and `respiratory acidosis` is
appended to `additionalDisorders`. -/
theorem c6_winters_formula :
    (∀ (pow10 : ℚ → ℚ) (v : Values) (ph paco2 hco3 : ℚ),
      validateInputs v = .ok (ph, paco2, hco3) →
      (analyze pow10 v).state.primaryDisorder = some "metabolic acidosis" →
      (analyze pow10 v).state.expectedCompensationValue = some (1.5 * hco3 + 8) ∧
      ((analyze pow10 v).state.compensationAssessment = some "appropriate" ↔
        |paco2 - (1.5 * hco3 + 8)| ≤ 2)) ∧
    (∀ pow10 : ℚ → ℚ,
      (analyze pow10
        { ph := some 7.25, paco2 := some 30, hco3 := some 13,
          na := none, cl := none, albumin := none }).state.expectedCompensationValue =
        some 27.5 ∧
      (30 : ℚ) > 27.5 + 2 ∧
      (analyze pow10
        { ph := some 7.25, paco2 := some 30, hco3 := some 13,
          na := none, cl := none, albumin := none }).state.compensationAssessment =
        some "mixed" ∧
      "respiratory acidosis" ∈ (analyze pow10
        { ph := some 7.25, paco2 := some 30, hco3 := some 13,
          na := none, cl := none, albumin := none }).state.additionalDisorders) := by
  constructor
  · intro pow10 v ph paco2 hco3 h hprim
    have hPL : some (primaryLabel (some (phClass ph)) paco2 hco3) =
        some "metabolic acidosis" := by
      rw [← analyze_primaryDisorder pow10 v ph paco2 hco3 h]
      exact hprim
    have hs3 : (stepThreeState ph paco2 hco3).primaryDisorder =
        some "metabolic acidosis" := by
      simp only [stepThreeState]
      exact hPL
    have hcomp := analyze_compensationFields pow10 v ph paco2 hco3 h
    rw [hcomp.2.1, hcomp.2.2, stepFourState, evaluateCompensation_metAcid paco2 hco3 _ hs3]
    split_ifs with habs hlt
    · exact ⟨rfl, iff_of_true rfl habs⟩
    · exact ⟨rfl, iff_of_false (by simp) habs⟩
    · exact ⟨rfl, iff_of_false (by simp) habs⟩
  · intro pow10
    have hvalA : validateInputs
        { ph := some 7.25, paco2 := some 30, hco3 := some 13,
          na := none, cl := none, albumin := none } = .ok (7.25, 30, 13) := by
      norm_num [validateInputs]
    have hs3A : (stepThreeState 7.25 30 13).primaryDisorder =
        some "metabolic acidosis" := by
      simp only [stepThreeState]
      norm_num [primaryLabel, phClass, Option.some.injEq]
    have h4 := evaluateCompensation_metAcid 30 13 _ hs3A
    have h4exp : (stepFourState 7.25 30 13).expectedCompensationValue = some 27.5 := by
      rw [stepFourState, h4]
      norm_num [qabs_eval]
    have h4assess : (stepFourState 7.25 30 13).compensationAssessment = some "mixed" := by
      rw [stepFourState, h4]
      norm_num [qabs_eval]
    have h4list : (stepFourState 7.25 30 13).additionalDisorders =
        ["respiratory acidosis"] := by
      rw [stepFourState, h4]
      norm_num [qabs_eval, stepThreeState, resetState]
    have hcomp := analyze_compensationFields pow10 _ 7.25 30 13 hvalA
    refine ⟨by rw [hcomp.2.1, h4exp], by norm_num, by rw [hcomp.2.2, h4assess], ?_⟩
    rw [analyze_ok_state pow10 _ 7.25 30 13 hvalA]
    obtain ⟨t6, h6⟩ := deltaRatioStage_addAppend 13
      (anionGapStage none none 13 none (stepFourState 7.25 30 13)).2
    rw [h6]
    refine List.mem_append_left _ ?_
    obtain ⟨t5, h5⟩ := anionGapStage_addAppend none none 13 none (stepFourState 7.25 30 13)
    rw [h5]
    refine List.mem_append_left _ ?_
    rw [h4list]
    simp

/-- Witness for C6: an appropriate-compensation metabolic-acidosis input. -/
theorem c6_winters_formula_witness :
    (analyze measuredHStub
      { ph := some 7.30, paco2 := some 30, hco3 := some 14,
        na := none, cl := none, albumin := none }).state.expectedCompensationValue =
      some 29 ∧
    (analyze measuredHStub
      { ph := some 7.30, paco2 := some 30, hco3 := some 14,
        na := none, cl := none, albumin := none }).state.compensationAssessment =
      some "appropriate" := by
  have hval : validateInputs
      { ph := some 7.30, paco2 := some 30, hco3 := some 14,
        na := none, cl := none, albumin := none } = .ok (7.30, 30, 14) := by
    norm_num [validateInputs]
  have hprim : (analyze measuredHStub
      { ph := some 7.30, paco2 := some 30, hco3 := some 14,
        na := none, cl := none, albumin := none }).state.primaryDisorder =
      some "metabolic acidosis" := by
    rw [analyze_primaryDisorder measuredHStub _ 7.30 30 14 hval]
    norm_num [primaryLabel, phClass, Option.some.injEq]
  have hmain := c6_winters_formula.1 measuredHStub _ 7.30 30 14 hval hprim
  constructor
  · rw [hmain.1]; norm_num
  · exact hmain.2.mpr (by norm_num [qabs_eval])

/-- For a validated input, the primary label computed by step 3 matches the
primary disorder read back from the final state. -/
theorem analyze_stepThree_primary (pow10 : ℚ → ℚ) (v : Values) (ph paco2 hco3 : ℚ)
    (lbl : String) (h : validateInputs v = .ok (ph, paco2, hco3))
    (hprim : (analyze pow10 v).state.primaryDisorder = some lbl) :
    (stepThreeState ph paco2 hco3).primaryDisorder = some lbl := by
  simp only [stepThreeState]
  rw [← analyze_primaryDisorder pow10 v ph paco2 hco3 h]
  exact hprim

/-- The respiratory adequacy block reports `appropriate` exactly within the
±3 band around the chosen expected value. -/
theorem respAssess_assessment_iff (hco3 e : ℚ) (s1 : AnalysisState) :
    ((respAssess hco3 e s1).compensationAssessment = some "appropriate" ↔
      |hco3 - e| ≤ 3) := by
  unfold respAssess
  split_ifs with h1 h2
  · exact iff_of_true rfl h1
  · exact iff_of_false (by simp) h1
  · exact iff_of_false (by simp) h1

/-- C5: under a respiratory primary disorder, both the acute and the chronic
expected HCO₃⁻ are computed (0.1/0.35 of Δpaco2 for acidosis, 0.2/0.5 for
alkalosis, around 24), the one strictly closer to the measured hco3 is stored
together with the matching `compensationType`, and adequacy is judged with
tolerance ±3 mmol/L around the stored value. -/
theorem c5_respiratory_compensation (pow10 : ℚ → ℚ) (v : Values) (ph paco2 hco3 : ℚ)
    (h : validateInputs v = .ok (ph, paco2, hco3)) :
    ((analyze pow10 v).state.primaryDisorder = some "respiratory acidosis" →
      (|hco3 - (24 + 0.1 * (paco2 - 40))| < |hco3 - (24 + 0.35 * (paco2 - 40))| →
        (analyze pow10 v).state.compensationType = some "acute" ∧
        (analyze pow10 v).state.expectedCompensationValue =
          some (24 + 0.1 * (paco2 - 40))) ∧
      (|hco3 - (24 + 0.35 * (paco2 - 40))| < |hco3 - (24 + 0.1 * (paco2 - 40))| →
        (analyze pow10 v).state.compensationType = some "chronic" ∧
        (analyze pow10 v).state.expectedCompensationValue =
          some (24 + 0.35 * (paco2 - 40))) ∧
      (∀ e, (analyze pow10 v).state.expectedCompensationValue = some e →
        ((analyze pow10 v).state.compensationAssessment = some "appropriate" ↔
          |hco3 - e| ≤ 3))) ∧
    ((analyze pow10 v).state.primaryDisorder = some "respiratory alkalosis" →
      (|hco3 - (24 + 0.2 * (paco2 - 40))| < |hco3 - (24 + 0.5 * (paco2 - 40))| →
        (analyze pow10 v).state.compensationType = some "acute" ∧
        (analyze pow10 v).state.expectedCompensationValue =
          some (24 + 0.2 * (paco2 - 40))) ∧
      (|hco3 - (24 + 0.5 * (paco2 - 40))| < |hco3 - (24 + 0.2 * (paco2 - 40))| →
        (analyze pow10 v).state.compensationType = some "chronic" ∧
        (analyze pow10 v).state.expectedCompensationValue =
          some (24 + 0.5 * (paco2 - 40))) ∧
      (∀ e, (analyze pow10 v).state.expectedCompensationValue = some e →
        ((analyze pow10 v).state.compensationAssessment = some "appropriate" ↔
          |hco3 - e| ≤ 3))) := by
  have hcomp := analyze_compensationFields pow10 v ph paco2 hco3 h
  constructor
  · intro hprim
    have hs3 := analyze_stepThree_primary pow10 v ph paco2 hco3 _ h hprim
    have h4 := evaluateCompensation_respAcid paco2 hco3 _ hs3
    have hc1 : (24 : ℚ) + 0.1 * (paco2 - 40) = 24 + (paco2 - 40) * 0.1 := by ring
    have hc2 : (24 : ℚ) + 0.35 * (paco2 - 40) = 24 + (paco2 - 40) * 0.35 := by ring
    rw [hcomp.1, hcomp.2.1, hcomp.2.2, stepFourState, h4, hc1, hc2]
    refine ⟨fun hlt => ?_, fun hlt => ?_, fun e he => ?_⟩
    · rw [if_pos hlt]
      exact ⟨(respAssess_preserved _ _ _).2.2.1, (respAssess_preserved _ _ _).2.2.2.1⟩
    · rw [if_neg (lt_asymm hlt)]
      exact ⟨(respAssess_preserved _ _ _).2.2.1, (respAssess_preserved _ _ _).2.2.2.1⟩
    · revert he
      split_ifs with hch <;> intro he <;>
        rw [(respAssess_preserved _ _ _).2.2.2.1] at he <;>
        simp only [Option.some.injEq] at he <;>
        rw [← he] <;>
        exact respAssess_assessment_iff _ _ _
  · intro hprim
    have hs3 := analyze_stepThree_primary pow10 v ph paco2 hco3 _ h hprim
    have h4 := evaluateCompensation_respAlk paco2 hco3 _ hs3
    have hc1 : (24 : ℚ) + 0.2 * (paco2 - 40) = 24 + (paco2 - 40) * 0.2 := by ring
    have hc2 : (24 : ℚ) + 0.5 * (paco2 - 40) = 24 + (paco2 - 40) * 0.5 := by ring
    rw [hcomp.1, hcomp.2.1, hcomp.2.2, stepFourState, h4, hc1, hc2]
    refine ⟨fun hlt => ?_, fun hlt => ?_, fun e he => ?_⟩
    · rw [if_pos hlt]
      exact ⟨(respAssess_preserved _ _ _).2.2.1, (respAssess_preserved _ _ _).2.2.2.1⟩
    · rw [if_neg (lt_asymm hlt)]
      exact ⟨(respAssess_preserved _ _ _).2.2.1, (respAssess_preserved _ _ _).2.2.2.1⟩
    · revert he
      split_ifs with hch <;> intro he <;>
        rw [(respAssess_preserved _ _ _).2.2.2.1] at he <;>
        simp only [Option.some.injEq] at he <;>
        rw [← he] <;>
        exact respAssess_assessment_iff _ _ _

/-- Witness for C5: an acute respiratory-acidosis input. -/
theorem c5_respiratory_compensation_witness :
    (analyze measuredHStub
      { ph := some 7.30, paco2 := some 60, hco3 := some 20,
        na := none, cl := none, albumin := none }).state.compensationType = some "acute" ∧
    (analyze measuredHStub
      { ph := some 7.30, paco2 := some 60, hco3 := some 20,
        na := none, cl := none, albumin := none }).state.expectedCompensationValue =
      some 26 := by
  have hval : validateInputs
      { ph := some 7.30, paco2 := some 60, hco3 := some 20,
        na := none, cl := none, albumin := none } = .ok (7.30, 60, 20) := by
    norm_num [validateInputs]
  have hprim : (analyze measuredHStub
      { ph := some 7.30, paco2 := some 60, hco3 := some 20,
        na := none, cl := none, albumin := none }).state.primaryDisorder =
      some "respiratory acidosis" := by
    rw [analyze_primaryDisorder measuredHStub _ 7.30 60 20 hval]
    norm_num [primaryLabel, phClass, Option.some.injEq]
  have hmain := (c5_respiratory_compensation measuredHStub _ 7.30 60 20 hval).1 hprim
  have hacute := hmain.1 (by norm_num [qabs_eval])
  exact ⟨hacute.1, by rw [hacute.2]; norm_num⟩

theorem string_data_append (s t : String) : (s ++ t).data = s.data ++ t.data := by
  cases s
  cases t
  rfl

theorem charsStartWith_append (s t p : List Char) (h : charsStartWith s p = true) :
    charsStartWith (s ++ t) p = true := by
  induction p generalizing s with
  | nil => simp [charsStartWith]
  | cons d ds ih =>
    cases s with
    | nil => simp [charsStartWith] at h
    | cons c cs =>
      simp only [charsStartWith, Bool.and_eq_true] at h
      simp only [List.cons_append, charsStartWith, Bool.and_eq_true]
      exact ⟨h.1, ih cs h.2⟩

theorem charsContain_append_right (s t p : List Char) (h : charsContain t p = true) :
    charsContain (s ++ t) p = true := by
  induction s with
  | nil => simpa using h
  | cons c cs ih =>
    simp only [List.cons_append, charsContain, Bool.or_eq_true]
    exact Or.inr ih

theorem charsContain_append_left (s t p : List Char) (h : charsContain s p = true) :
    charsContain (s ++ t) p = true := by
  induction s with
  | nil =>
    have hp : p = [] := by simpa [charsContain, List.isEmpty_iff] using h
    subst hp
    cases t <;> simp [charsContain, charsStartWith]
  | cons c cs ih =>
    simp only [charsContain, Bool.or_eq_true] at h
    simp only [List.cons_append, charsContain, Bool.or_eq_true]
    rcases h with hl | hr
    · exact Or.inl (by simpa using charsStartWith_append (c :: cs) t p hl)
    · exact Or.inr (ih hr)

/-- If the pattern occurs in the right part, it occurs in the concatenation. -/
theorem containsSubstr_append_right (s t pat : String) (h : containsSubstr t pat = true) :
    containsSubstr (s ++ t) pat = true := by
  unfold containsSubstr at h ⊢
  rw [string_data_append]
  exact charsContain_append_right s.data t.data pat.data h

/-- If the pattern occurs in the left part, it occurs in the concatenation. -/
theorem containsSubstr_append_left (s t pat : String) (h : containsSubstr s pat = true) :
    containsSubstr (s ++ t) pat = true := by
  unfold containsSubstr at h ⊢
  rw [string_data_append]
  exact charsContain_append_left s.data t.data pat.data h

/-- The step-5 text reports the elevated / normal anion-gap verdict according
to the corrected anion gap. -/
theorem calculateAnionGap_fst_contains (na cl hco3 : ℚ) (albumin : Option ℚ)
    (s : AnalysisState) :
    (correctedAG (na - (cl + hco3)) albumin > 12 →
      containsSubstr (calculateAnionGap na cl hco3 albumin s).1 "Elevated Anion Gap" =
        true) ∧
    (correctedAG (na - (cl + hco3)) albumin ≤ 12 →
      containsSubstr (calculateAnionGap na cl hco3 albumin s).1 "Normal Anion Gap" =
        true) := by
  constructor <;> intro hg
  · simp only [calculateAnionGap]
    split_ifs with h1 h2
    all_goals
      first
        | exact absurd hg h1
        | (apply containsSubstr_append_right; decide)
        | (apply containsSubstr_append_left; apply containsSubstr_append_right; decide)
  · simp only [calculateAnionGap]
    split_ifs with h1 h2
    all_goals
      first
        | (exfalso; linarith)
        | (apply containsSubstr_append_right; decide)

theorem respAssess_add_cases (hco3 e : ℚ) (s1 : AnalysisState) :
    (respAssess hco3 e s1).additionalDisorders = s1.additionalDisorders ∨
    (respAssess hco3 e s1).additionalDisorders =
      s1.additionalDisorders ++ ["metabolic acidosis"] ∨
    (respAssess hco3 e s1).additionalDisorders =
      s1.additionalDisorders ++ ["metabolic alkalosis"] := by
  unfold respAssess
  split_ifs
  · exact Or.inl rfl
  · exact Or.inr (Or.inl rfl)
  · exact Or.inr (Or.inr rfl)

/-- The only labels step 4 can append. -/
theorem evaluateCompensation_add_cases (paco2 hco3 : ℚ) (s : AnalysisState) :
    (evaluateCompensation paco2 hco3 s).2.additionalDisorders = s.additionalDisorders ∨
    (evaluateCompensation paco2 hco3 s).2.additionalDisorders =
      s.additionalDisorders ++ ["respiratory alkalosis"] ∨
    (evaluateCompensation paco2 hco3 s).2.additionalDisorders =
      s.additionalDisorders ++ ["respiratory acidosis"] ∨
    (evaluateCompensation paco2 hco3 s).2.additionalDisorders =
      s.additionalDisorders ++ ["metabolic acidosis"] ∨
    (evaluateCompensation paco2 hco3 s).2.additionalDisorders =
      s.additionalDisorders ++ ["metabolic alkalosis"] := by
  by_cases h0 : compSkip s.primaryDisorder = true
  · rw [evaluateCompensation_skip paco2 hco3 s h0]
    exact Or.inl rfl
  · rw [Bool.not_eq_true] at h0
    by_cases h1 : s.primaryDisorder = some "metabolic acidosis"
    · rw [evaluateCompensation_metAcid paco2 hco3 s h1]
      split_ifs
      · exact Or.inl rfl
      · exact Or.inr (Or.inl rfl)
      · exact Or.inr (Or.inr (Or.inl rfl))
    · by_cases h2 : s.primaryDisorder = some "metabolic alkalosis"
      · rw [evaluateCompensation_metAlk paco2 hco3 s h2]
        split_ifs
        · exact Or.inl rfl
        · exact Or.inr (Or.inl rfl)
        · exact Or.inr (Or.inr (Or.inl rfl))
      · by_cases h3 : s.primaryDisorder = some "respiratory acidosis"
        · rw [evaluateCompensation_respAcid paco2 hco3 s h3]
          split_ifs <;>
            rcases respAssess_add_cases hco3 _ _ with hc | hc | hc <;>
            rw [hc] <;>
            first
              | exact Or.inl rfl
              | exact Or.inr (Or.inr (Or.inr (Or.inl rfl)))
              | exact Or.inr (Or.inr (Or.inr (Or.inr rfl)))
        · by_cases h4 : s.primaryDisorder = some "respiratory alkalosis"
          · rw [evaluateCompensation_respAlk paco2 hco3 s h4]
            split_ifs <;>
              rcases respAssess_add_cases hco3 _ _ with hc | hc | hc <;>
              rw [hc] <;>
              first
                | exact Or.inl rfl
                | exact Or.inr (Or.inr (Or.inr (Or.inl rfl)))
                | exact Or.inr (Or.inr (Or.inr (Or.inr rfl)))
          · rw [evaluateCompensation_other paco2 hco3 s h0 h1 h2 h3 h4]
            exact Or.inl rfl

theorem deltaRatioDispatch_add_cases (agToCheck hco3 : ℚ) (s : AnalysisState) :
    (deltaRatioDispatch agToCheck hco3 s).2.additionalDisorders = s.additionalDisorders ∨
    (deltaRatioDispatch agToCheck hco3 s).2.additionalDisorders =
      s.additionalDisorders ++ ["normal anion gap metabolic acidosis"] ∨
    (deltaRatioDispatch agToCheck hco3 s).2.additionalDisorders =
      s.additionalDisorders ++ ["metabolic alkalosis"] := by
  unfold deltaRatioDispatch
  split_ifs with h1 h2
  · rw [evaluateDeltaRatioStep_snd]
    split_ifs <;>
      first
        | exact Or.inl rfl
        | exact Or.inr (Or.inl rfl)
        | exact Or.inr (Or.inr rfl)
  · exact Or.inl rfl
  · exact Or.inl rfl

/-- The only labels step 6 can append. -/
theorem deltaRatioStage_add_cases (hco3 : ℚ) (s : AnalysisState) :
    (deltaRatioStage hco3 s).2.additionalDisorders = s.additionalDisorders ∨
    (deltaRatioStage hco3 s).2.additionalDisorders =
      s.additionalDisorders ++ ["normal anion gap metabolic acidosis"] ∨
    (deltaRatioStage hco3 s).2.additionalDisorders =
      s.additionalDisorders ++ ["metabolic alkalosis"] := by
  unfold deltaRatioStage
  cases hc : s.correctedAnionGap
  case some v => exact deltaRatioDispatch_add_cases v hco3 s
  case none =>
    cases ha : s.anionGap
    case some v => exact deltaRatioDispatch_add_cases v hco3 s
    case none => split_ifs <;> exact Or.inl rfl

/-- Step 4 never appends the high-anion-gap label, so it is absent after
step 4. -/
theorem stepFour_not_hagma (ph paco2 hco3 : ℚ) :
    "high anion gap metabolic acidosis" ∉
      (stepFourState ph paco2 hco3).additionalDisorders := by
  intro hmem
  rw [stepFourState] at hmem
  rcases evaluateCompensation_add_cases paco2 hco3 (stepThreeState ph paco2 hco3) with
    hc | hc | hc | hc | hc <;>
    rw [hc] at hmem <;> simp [stepThreeState, resetState] at hmem

/-- The gap values written by step 5 when na and cl are provided. -/
theorem anionGapStage_some_fields (naV clV hco3 : ℚ) (albumin : Option ℚ)
    (s : AnalysisState) :
    (anionGapStage (some naV) (some clV) hco3 albumin s).2.anionGap =
      some (naV - (clV + hco3)) ∧
    (anionGapStage (some naV) (some clV) hco3 albumin s).2.correctedAnionGap =
      some (correctedAG (naV - (clV + hco3)) albumin) := by
  rw [anionGapStage_some, calculateAnionGap_snd]
  split_ifs <;> exact ⟨rfl, rfl⟩

theorem correctedAG_some (ag a : ℚ) (h1 : 0 ≤ a) (h2 : a < 4) :
    correctedAG ag (some a) = ag + 2.5 * (4 - a) := by
  simp [correctedAG, h1, h2]

theorem correctedAG_none (ag : ℚ) : correctedAG ag none = ag := rfl

theorem correctedAG_out (ag a : ℚ) (h : a < 0 ∨ 4 ≤ a) :
    correctedAG ag (some a) = ag := by
  simp only [correctedAG]
  rw [if_neg]
  rintro ⟨hlt, hge⟩
  rcases h with h | h
  · linarith
  · linarith

/-- On a validated input, the step-5 text is the anion-gap stage's text. -/
theorem analyze_ok_step5 (pow10 : ℚ → ℚ) (v : Values) (ph paco2 hco3 : ℚ)
    (h : validateInputs v = .ok (ph, paco2, hco3)) :
    (analyze pow10 v).results.step5 =
      (anionGapStage v.na v.cl hco3 v.albumin (stepFourState ph paco2 hco3)).1 := by
  simp only [analyze, h, determineAcidemiaAlkalemia_snd, identifyPrimaryDisorder_snd,
    stepFourState, stepThreeState]

/-- C7: with na and cl provided (hco3 is always present after validation),
`anionGap = na − (cl + hco3)`; the corrected gap adds `2.5·(4.0 − albumin)`
exactly when albumin is provided and lies in `[0, 4.0)` and equals the raw
gap otherwise; a corrected gap above 12 is reported as elevated and, when the
primary disorder is not metabolic acidosis, appends the high-anion-gap label
(deduplicated); a corrected gap of at most 12 is reported as normal and the
high-anion-gap label is never present. -/
theorem c7_anion_gap (pow10 : ℚ → ℚ) (v : Values) (ph paco2 hco3 na cl : ℚ)
    (h : validateInputs v = .ok (ph, paco2, hco3))
    (hna : v.na = some na) (hcl : v.cl = some cl) :
    (analyze pow10 v).state.anionGap = some (na - (cl + hco3)) ∧
    (∀ a, v.albumin = some a → 0 ≤ a → a < 4 →
      (analyze pow10 v).state.correctedAnionGap =
        some (na - (cl + hco3) + 2.5 * (4 - a))) ∧
    (v.albumin = none ∨ (∃ a, v.albumin = some a ∧ (a < 0 ∨ 4 ≤ a)) →
      (analyze pow10 v).state.correctedAnionGap = some (na - (cl + hco3))) ∧
    (∀ cag, (analyze pow10 v).state.correctedAnionGap = some cag →
      (cag > 12 →
        containsSubstr (analyze pow10 v).results.step5 "Elevated Anion Gap" = true ∧
        ((analyze pow10 v).state.primaryDisorder ≠ some "metabolic acidosis" →
          "high anion gap metabolic acidosis" ∈
            (analyze pow10 v).state.additionalDisorders)) ∧
      (cag ≤ 12 →
        containsSubstr (analyze pow10 v).results.step5 "Normal Anion Gap" = true ∧
        "high anion gap metabolic acidosis" ∉
          (analyze pow10 v).state.additionalDisorders)) := by
  have hag := analyze_anionGapFields pow10 v ph paco2 hco3 h
  rw [hna, hcl] at hag
  have hfield := anionGapStage_some_fields na cl hco3 v.albumin (stepFourState ph paco2 hco3)
  have hcor : (analyze pow10 v).state.correctedAnionGap =
      some (correctedAG (na - (cl + hco3)) v.albumin) := hag.2.trans hfield.2
  refine ⟨hag.1.trans hfield.1, ?_, ?_, ?_⟩
  · intro a halb h0 h4
    rw [hcor, halb, correctedAG_some _ a h0 h4]
  · intro hcase
    rw [hcor]
    rcases hcase with hnone | ⟨a, ha, hout⟩
    · rw [hnone, correctedAG_none]
    · rw [ha, correctedAG_out _ a hout]
  · intro cag hcag
    have hc : correctedAG (na - (cl + hco3)) v.albumin = cag :=
      Option.some.inj (hcor.symm.trans hcag)
    constructor
    · intro hgt
      constructor
      · rw [analyze_ok_step5 pow10 v ph paco2 hco3 h, hna, hcl, anionGapStage_some]
        exact (calculateAnionGap_fst_contains na cl hco3 v.albumin _).1
          (by rw [hc]; exact hgt)
      · intro hne
        have hprim4 : (stepFourState ph paco2 hco3).primaryDisorder ≠
            some "metabolic acidosis" := by
          intro hEq
          apply hne
          rw [analyze_primaryDisorder pow10 v ph paco2 hco3 h]
          rw [stepFourState] at hEq
          rw [(evaluateCompensation_preserved _ _ _).2.1] at hEq
          exact hEq
        rw [analyze_ok_state pow10 v ph paco2 hco3 h, hna, hcl]
        obtain ⟨t6, h6⟩ := deltaRatioStage_addAppend hco3
          (anionGapStage (some na) (some cl) hco3 v.albumin (stepFourState ph paco2 hco3)).2
        rw [h6]
        apply List.mem_append_left
        rw [anionGapStage_some, calculateAnionGap_snd,
          if_pos (show correctedAG (na - (cl + hco3)) v.albumin > 12 by rw [hc]; exact hgt),
          if_pos ⟨hprim4, stepFour_not_hagma ph paco2 hco3⟩]
        simp
    · intro hle
      have hngt : ¬ correctedAG (na - (cl + hco3)) v.albumin > 12 := by
        rw [hc]; exact not_lt.mpr hle
      constructor
      · rw [analyze_ok_step5 pow10 v ph paco2 hco3 h, hna, hcl, anionGapStage_some]
        exact (calculateAnionGap_fst_contains na cl hco3 v.albumin _).2
          (by rw [hc]; exact hle)
      · intro hmem
        rw [analyze_ok_state pow10 v ph paco2 hco3 h, hna, hcl] at hmem
        have hAout : (anionGapStage (some na) (some cl) hco3 v.albumin
            (stepFourState ph paco2 hco3)).2.additionalDisorders =
            (stepFourState ph paco2 hco3).additionalDisorders := by
          rw [anionGapStage_some, calculateAnionGap_snd, if_neg hngt]
        rcases deltaRatioStage_add_cases hco3
            (anionGapStage (some na) (some cl) hco3 v.albumin
              (stepFourState ph paco2 hco3)).2 with h6 | h6 | h6 <;>
          rw [h6, hAout] at hmem
        · exact stepFour_not_hagma ph paco2 hco3 hmem
        · simp only [List.mem_append, List.mem_singleton] at hmem
          rcases hmem with hmem | hmem
          · exact stepFour_not_hagma ph paco2 hco3 hmem
          · simp at hmem
        · simp only [List.mem_append, List.mem_singleton] at hmem
          rcases hmem with hmem | hmem
          · exact stepFour_not_hagma ph paco2 hco3 hmem
          · simp at hmem

/-- Witness for C7: spec scenario D ({na 140, cl 100, hco3 15, albumin 2.0}
with a valid blood gas): AG 25, corrected AG 30, reported elevated. -/
theorem c7_anion_gap_witness :
    (analyze measuredHStub
      { ph := some 7.30, paco2 := some 30, hco3 := some 15,
        na := some 140, cl := some 100, albumin := some 2.0 }).state.anionGap =
      some 25 ∧
    (analyze measuredHStub
      { ph := some 7.30, paco2 := some 30, hco3 := some 15,
        na := some 140, cl := some 100, albumin := some 2.0 }).state.correctedAnionGap =
      some 30 ∧
    containsSubstr (analyze measuredHStub
      { ph := some 7.30, paco2 := some 30, hco3 := some 15,
        na := some 140, cl := some 100, albumin := some 2.0 }).results.step5
      "Elevated Anion Gap" = true := by
  have hval : validateInputs
      { ph := some 7.30, paco2 := some 30, hco3 := some 15,
        na := some 140, cl := some 100, albumin := some 2.0 } = .ok (7.30, 30, 15) := by
    norm_num [validateInputs]
  have hmain := c7_anion_gap measuredHStub _ 7.30 30 15 140 100 hval rfl rfl
  have hcor : (analyze measuredHStub
      { ph := some 7.30, paco2 := some 30, hco3 := some 15,
        na := some 140, cl := some 100, albumin := some 2.0 }).state.correctedAnionGap =
      some 30 := by
    have := hmain.2.1 2.0 rfl (by norm_num) (by norm_num)
    rw [this]; norm_num
  exact ⟨by rw [hmain.1]; norm_num, hcor, ((hmain.2.2.2 30 hcor).1 (by norm_num)).1⟩

/-- The three-way verdict of the respiratory adequacy block. -/
theorem respAssess_directions (hco3 e : ℚ) (s1 : AnalysisState) :
    (|hco3 - e| ≤ 3 →
      (respAssess hco3 e s1).compensationAssessment = some "appropriate" ∧
      (respAssess hco3 e s1).additionalDisorders = s1.additionalDisorders) ∧
    (hco3 < e - 3 →
      (respAssess hco3 e s1).compensationAssessment = some "mixed" ∧
      (respAssess hco3 e s1).additionalDisorders =
        s1.additionalDisorders ++ ["metabolic acidosis"]) ∧
    (hco3 > e + 3 →
      (respAssess hco3 e s1).compensationAssessment = some "mixed" ∧
      (respAssess hco3 e s1).additionalDisorders =
        s1.additionalDisorders ++ ["metabolic alkalosis"]) := by
  unfold respAssess
  refine ⟨fun hin => ?_, fun hlt => ?_, fun hgt => ?_⟩
  · rw [if_pos hin]
    exact ⟨rfl, rfl⟩
  · have h1 : ¬ |hco3 - e| ≤ 3 := by
      rw [not_le, qabs_eval]
      split_ifs with hn
      · linarith
      · linarith
    rw [if_neg h1, if_pos hlt]
    exact ⟨rfl, rfl⟩
  · have h1 : ¬ |hco3 - e| ≤ 3 := by
      rw [not_le, qabs_eval]
      split_ifs with hn
      · linarith
      · linarith
    have h2 : ¬ hco3 < e - 3 := by linarith
    rw [if_neg h1, if_neg h2]
    exact ⟨rfl, rfl⟩

/-- C2 (counterexample): at {ph 7.30, paco2 60, hco3 20} the primary disorder
is respiratory acidosis, the chosen expected HCO₃⁻ is 26, the measured 20
lies below expected − tolerance, and the appended disorder is `metabolic
acidosis` — not the alkalosis-direction disorder `metabolic alkalosis`
required by the claim for a below-band measurement. -/
theorem c2_compensation_direction_counterexample :
    (analyze measuredHStub
      { ph := some 7.30, paco2 := some 60, hco3 := some 20,
        na := none, cl := none, albumin := none }).state.primaryDisorder =
      some "respiratory acidosis" ∧
    (analyze measuredHStub
      { ph := some 7.30, paco2 := some 60, hco3 := some 20,
        na := none, cl := none, albumin := none }).state.expectedCompensationValue =
      some 26 ∧
    (20 : ℚ) < 26 - 3 ∧
    (analyze measuredHStub
      { ph := some 7.30, paco2 := some 60, hco3 := some 20,
        na := none, cl := none, albumin := none }).state.compensationAssessment =
      some "mixed" ∧
    (analyze measuredHStub
      { ph := some 7.30, paco2 := some 60, hco3 := some 20,
        na := none, cl := none, albumin := none }).state.additionalDisorders =
      ["metabolic acidosis"] ∧
    ¬ "metabolic alkalosis" ∈ (analyze measuredHStub
      { ph := some 7.30, paco2 := some 60, hco3 := some 20,
        na := none, cl := none, albumin := none }).state.additionalDisorders := by
  have hval : validateInputs
      { ph := some 7.30, paco2 := some 60, hco3 := some 20,
        na := none, cl := none, albumin := none } = .ok (7.30, 60, 20) := by
    norm_num [validateInputs]
  have hprim : (analyze measuredHStub
      { ph := some 7.30, paco2 := some 60, hco3 := some 20,
        na := none, cl := none, albumin := none }).state.primaryDisorder =
      some "respiratory acidosis" := by
    rw [analyze_primaryDisorder measuredHStub _ 7.30 60 20 hval]
    norm_num [primaryLabel, phClass, Option.some.injEq]
  have hs3 : (stepThreeState 7.30 60 20).primaryDisorder = some "respiratory acidosis" := by
    simp only [stepThreeState]
    norm_num [primaryLabel, phClass, Option.some.injEq]
  have h4full : stepFourState 7.30 60 20 =
      { acidBaseStatus := some "acidemia", primaryDisorder := some "respiratory acidosis",
        compensationType := some "acute", expectedCompensationValue := some 26,
        compensationAssessment := some "mixed",
        additionalDisorders := ["metabolic acidosis"], anionGap := none,
        correctedAnionGap := none, deltaRatioValue := none,
        deltaRatioAssessment := none } := by
    rw [stepFourState, evaluateCompensation_respAcid 60 20 _ hs3]
    norm_num [respAssess, qabs_eval, stepThreeState, resetState, phClass, primaryLabel]
  have hlist : (analyze measuredHStub
      { ph := some 7.30, paco2 := some 60, hco3 := some 20,
        na := none, cl := none, albumin := none }).state.additionalDisorders =
      ["metabolic acidosis"] := by
    rw [analyze_ok_state measuredHStub _ 7.30 60 20 hval, h4full]
    simp [anionGapStage, deltaRatioStage]
  have hcomp := analyze_compensationFields measuredHStub _ 7.30 60 20 hval
  refine ⟨hprim, ?_, by norm_num, ?_, hlist, ?_⟩
  · rw [hcomp.2.1, h4full]
  · rw [hcomp.2.2, h4full]
  · rw [hlist]
    simp

/-- C2 (amended): for the four pure primary disorders the within-tolerance
case reports `appropriate` and appends nothing; outside the band the
assessment is `mixed` and the appended disorder follows the direction of the
measured quantity — for the metabolic primaries (measured paco2): below the
band appends respiratory alkalosis and above appends respiratory acidosis;
for the respiratory primaries (measured hco3): below the band appends
metabolic acidosis and above appends metabolic alkalosis. -/
theorem c2_compensation_directions (paco2 hco3 : ℚ) (s : AnalysisState) :
    (s.primaryDisorder = some "metabolic acidosis" →
      (|paco2 - (1.5 * hco3 + 8)| ≤ 2 →
        (evaluateCompensation paco2 hco3 s).2.compensationAssessment =
          some "appropriate" ∧
        (evaluateCompensation paco2 hco3 s).2.additionalDisorders =
          s.additionalDisorders) ∧
      (paco2 < (1.5 * hco3 + 8) - 2 →
        (evaluateCompensation paco2 hco3 s).2.compensationAssessment = some "mixed" ∧
        (evaluateCompensation paco2 hco3 s).2.additionalDisorders =
          s.additionalDisorders ++ ["respiratory alkalosis"]) ∧
      (paco2 > (1.5 * hco3 + 8) + 2 →
        (evaluateCompensation paco2 hco3 s).2.compensationAssessment = some "mixed" ∧
        (evaluateCompensation paco2 hco3 s).2.additionalDisorders =
          s.additionalDisorders ++ ["respiratory acidosis"])) ∧
    (s.primaryDisorder = some "metabolic alkalosis" →
      (|paco2 - (40 + 0.6 * (hco3 - 24))| ≤ 5 →
        (evaluateCompensation paco2 hco3 s).2.compensationAssessment =
          some "appropriate" ∧
        (evaluateCompensation paco2 hco3 s).2.additionalDisorders =
          s.additionalDisorders) ∧
      (paco2 < (40 + 0.6 * (hco3 - 24)) - 5 →
        (evaluateCompensation paco2 hco3 s).2.compensationAssessment = some "mixed" ∧
        (evaluateCompensation paco2 hco3 s).2.additionalDisorders =
          s.additionalDisorders ++ ["respiratory alkalosis"]) ∧
      (paco2 > (40 + 0.6 * (hco3 - 24)) + 5 →
        (evaluateCompensation paco2 hco3 s).2.compensationAssessment = some "mixed" ∧
        (evaluateCompensation paco2 hco3 s).2.additionalDisorders =
          s.additionalDisorders ++ ["respiratory acidosis"])) ∧
    (s.primaryDisorder = some "respiratory acidosis" →
      ∀ e, (evaluateCompensation paco2 hco3 s).2.expectedCompensationValue = some e →
        (|hco3 - e| ≤ 3 →
          (evaluateCompensation paco2 hco3 s).2.compensationAssessment =
            some "appropriate" ∧
          (evaluateCompensation paco2 hco3 s).2.additionalDisorders =
            s.additionalDisorders) ∧
        (hco3 < e - 3 →
          (evaluateCompensation paco2 hco3 s).2.compensationAssessment = some "mixed" ∧
          (evaluateCompensation paco2 hco3 s).2.additionalDisorders =
            s.additionalDisorders ++ ["metabolic acidosis"]) ∧
        (hco3 > e + 3 →
          (evaluateCompensation paco2 hco3 s).2.compensationAssessment = some "mixed" ∧
          (evaluateCompensation paco2 hco3 s).2.additionalDisorders =
            s.additionalDisorders ++ ["metabolic alkalosis"])) ∧
    (s.primaryDisorder = some "respiratory alkalosis" →
      ∀ e, (evaluateCompensation paco2 hco3 s).2.expectedCompensationValue = some e →
        (|hco3 - e| ≤ 3 →
          (evaluateCompensation paco2 hco3 s).2.compensationAssessment =
            some "appropriate" ∧
          (evaluateCompensation paco2 hco3 s).2.additionalDisorders =
            s.additionalDisorders) ∧
        (hco3 < e - 3 →
          (evaluateCompensation paco2 hco3 s).2.compensationAssessment = some "mixed" ∧
          (evaluateCompensation paco2 hco3 s).2.additionalDisorders =
            s.additionalDisorders ++ ["metabolic acidosis"]) ∧
        (hco3 > e + 3 →
          (evaluateCompensation paco2 hco3 s).2.compensationAssessment = some "mixed" ∧
          (evaluateCompensation paco2 hco3 s).2.additionalDisorders =
            s.additionalDisorders ++ ["metabolic alkalosis"])) := by
  refine ⟨fun hp => ?_, fun hp => ?_, fun hp => ?_, fun hp => ?_⟩
  · rw [evaluateCompensation_metAcid paco2 hco3 s hp]
    refine ⟨fun hin => ?_, fun hlt => ?_, fun hgt => ?_⟩
    · rw [if_pos hin]
      exact ⟨rfl, rfl⟩
    · have h1 : ¬ |paco2 - (1.5 * hco3 + 8)| ≤ 2 := by
        rw [not_le, qabs_eval]
        split_ifs with hn
        · linarith
        · linarith
      rw [if_neg h1, if_pos hlt]
      exact ⟨rfl, rfl⟩
    · have h1 : ¬ |paco2 - (1.5 * hco3 + 8)| ≤ 2 := by
        rw [not_le, qabs_eval]
        split_ifs with hn
        · linarith
        · linarith
      have h2 : ¬ paco2 < (1.5 * hco3 + 8) - 2 := by linarith
      rw [if_neg h1, if_neg h2]
      exact ⟨rfl, rfl⟩
  · rw [evaluateCompensation_metAlk paco2 hco3 s hp]
    refine ⟨fun hin => ?_, fun hlt => ?_, fun hgt => ?_⟩
    · rw [if_pos hin]
      exact ⟨rfl, rfl⟩
    · have h1 : ¬ |paco2 - (40 + 0.6 * (hco3 - 24))| ≤ 5 := by
        rw [not_le, qabs_eval]
        split_ifs with hn
        · linarith
        · linarith
      rw [if_neg h1, if_pos hlt]
      exact ⟨rfl, rfl⟩
    · have h1 : ¬ |paco2 - (40 + 0.6 * (hco3 - 24))| ≤ 5 := by
        rw [not_le, qabs_eval]
        split_ifs with hn
        · linarith
        · linarith
      have h2 : ¬ paco2 < (40 + 0.6 * (hco3 - 24)) - 5 := by linarith
      rw [if_neg h1, if_neg h2]
      exact ⟨rfl, rfl⟩
  · rw [evaluateCompensation_respAcid paco2 hco3 s hp]
    intro e he
    revert he
    split_ifs with hch <;> intro he <;>
      rw [(respAssess_preserved _ _ _).2.2.2.1] at he <;>
      simp only [Option.some.injEq] at he <;>
      rw [← he] <;>
      exact respAssess_directions _ _ _
  · rw [evaluateCompensation_respAlk paco2 hco3 s hp]
    intro e he
    revert he
    split_ifs with hch <;> intro he <;>
      rw [(respAssess_preserved _ _ _).2.2.2.1] at he <;>
      simp only [Option.some.injEq] at he <;>
      rw [← he] <;>
      exact respAssess_directions _ _ _

/-- Witness for C2 (amended): metabolic acidosis with measured paco2 above
the band appends respiratory acidosis. -/
theorem c2_compensation_directions_witness :
    (evaluateCompensation 30 13
      { resetState with
          primaryDisorder := some "metabolic acidosis" }).2.compensationAssessment =
      some "mixed" ∧
    (evaluateCompensation 30 13
      { resetState with
          primaryDisorder := some "metabolic acidosis" }).2.additionalDisorders =
      ["respiratory acidosis"] := by
  have hmain := ((c2_compensation_directions 30 13
    { resetState with primaryDisorder := some "metabolic acidosis" }).1 rfl).2.2
    (by norm_num)
  refine ⟨hmain.1, ?_⟩
  rw [hmain.2]
  rfl

/-- C1: the delta-ratio step's albumin adjustment is dead in the pipeline.
At {ph 7.25, paco2 30, hco3 13, na 140, cl 100, albumin 2.0} the corrected
anion gap is 32 and the delta-ratio step runs, but because `analyze` invokes
`evaluateDeltaRatio(agToCheck, values.hco3)` without the albumin argument the
normal AG stays 12: the stored ratio is (32−12)/11 = 20/11 with verdict
`pure HAGMA`.  Had albumin been forwarded, as the claim (and the function's
own documentation) requires, the adjusted normal AG would be max(3, 12 −
2.5·(4−2)) = 7, giving (32−7)/11 = 25/11 — a different ratio (and a ratio
above 2). -/
theorem c1_delta_normalAG_not_albumin_adjusted :
    (analyze measuredHStub
      { ph := some 7.25, paco2 := some 30, hco3 := some 13,
        na := some 140, cl := some 100, albumin := some 2.0 }).state.primaryDisorder =
      some "metabolic acidosis" ∧
    (analyze measuredHStub
      { ph := some 7.25, paco2 := some 30, hco3 := some 13,
        na := some 140, cl := some 100, albumin := some 2.0 }).state.correctedAnionGap =
      some 32 ∧
    (analyze measuredHStub
      { ph := some 7.25, paco2 := some 30, hco3 := some 13,
        na := some 140, cl := some 100, albumin := some 2.0 }).state.deltaRatioValue =
      some (20 / 11) ∧
    (analyze measuredHStub
      { ph := some 7.25, paco2 := some 30, hco3 := some 13,
        na := some 140, cl := some 100, albumin := some 2.0 }).state.deltaRatioAssessment =
      some "pure HAGMA" ∧
    (evaluateDeltaRatioStep 32 13 (some 2.0) resetState).2.deltaRatioValue =
      some (25 / 11) ∧
    ¬ (20 / 11 : ℚ) = 25 / 11 := by
  have hval : validateInputs
      { ph := some 7.25, paco2 := some 30, hco3 := some 13,
        na := some 140, cl := some 100, albumin := some 2.0 } = .ok (7.25, 30, 13) := by
    norm_num [validateInputs]
  have hprim : (analyze measuredHStub
      { ph := some 7.25, paco2 := some 30, hco3 := some 13,
        na := some 140, cl := some 100, albumin := some 2.0 }).state.primaryDisorder =
      some "metabolic acidosis" := by
    rw [analyze_primaryDisorder measuredHStub _ 7.25 30 13 hval]
    norm_num [primaryLabel, phClass, Option.some.injEq]
  have hs3 : (stepThreeState 7.25 30 13).primaryDisorder = some "metabolic acidosis" := by
    simp only [stepThreeState]
    norm_num [primaryLabel, phClass, Option.some.injEq]
  have h4full : stepFourState 7.25 30 13 =
      { acidBaseStatus := some "acidemia", primaryDisorder := some "metabolic acidosis",
        compensationType := none, expectedCompensationValue := some 27.5,
        compensationAssessment := some "mixed",
        additionalDisorders := ["respiratory acidosis"], anionGap := none,
        correctedAnionGap := none, deltaRatioValue := none,
        deltaRatioAssessment := none } := by
    rw [stepFourState, evaluateCompensation_metAcid 30 13 _ hs3]
    norm_num [qabs_eval, stepThreeState, resetState, phClass, primaryLabel]
  have h5full : (anionGapStage (some 140) (some 100) 13 (some 2.0)
      (stepFourState 7.25 30 13)).2 =
      { acidBaseStatus := some "acidemia", primaryDisorder := some "metabolic acidosis",
        compensationType := none, expectedCompensationValue := some 27.5,
        compensationAssessment := some "mixed",
        additionalDisorders := ["respiratory acidosis"], anionGap := some 27,
        correctedAnionGap := some 32, deltaRatioValue := none,
        deltaRatioAssessment := none } := by
    rw [anionGapStage_some, calculateAnionGap_snd, h4full]
    norm_num [correctedAG]
  have hstate : (analyze measuredHStub
      { ph := some 7.25, paco2 := some 30, hco3 := some 13,
        na := some 140, cl := some 100, albumin := some 2.0 }).state =
      { acidBaseStatus := some "acidemia", primaryDisorder := some "metabolic acidosis",
        compensationType := none, expectedCompensationValue := some 27.5,
        compensationAssessment := some "mixed",
        additionalDisorders := ["respiratory acidosis"], anionGap := some 27,
        correctedAnionGap := some 32, deltaRatioValue := some (20 / 11),
        deltaRatioAssessment := some "pure HAGMA" } := by
    rw [analyze_ok_state measuredHStub _ 7.25 30 13 hval]
    dsimp only
    rw [h5full]
    norm_num [deltaRatioStage, deltaRatioDispatch, evaluateDeltaRatioStep, normalAGadj]
  refine ⟨hprim, ?_, ?_, ?_, ?_, by norm_num⟩
  · rw [hstate]
  · rw [hstate]
  · rw [hstate]
  · rw [evaluateDeltaRatioStep_snd]
    norm_num [normalAGadj, max_def]
    split_ifs <;> rfl

/-- C9: `analyze` is deterministic and reads only the recognised measurement
keys: calls agreeing on the recognised keys — in particular identical calls,
or calls with extra unknown keys or omitted optional keys — return identical
results, and such keys never cause a failure. -/
theorem c9_analyze_pure_function :
    (∀ (pow10 : ℚ → ℚ) (v : String → Option ℚ),
      analyzeValues pow10 v = analyzeValues pow10 v) ∧
    (∀ (pow10 : ℚ → ℚ) (v1 v2 : String → Option ℚ),
      (∀ k ∈ recognisedKeys, v1 k = v2 k) →
      analyzeValues pow10 v1 = analyzeValues pow10 v2) := by
  refine ⟨fun pow10 v => rfl, fun pow10 v1 v2 hagree => ?_⟩
  have hv : readValues v1 = readValues v2 := by
    unfold readValues
    rw [hagree "ph" (by simp [recognisedKeys]), hagree "paco2" (by simp [recognisedKeys]),
      hagree "hco3" (by simp [recognisedKeys]), hagree "na" (by simp [recognisedKeys]),
      hagree "cl" (by simp [recognisedKeys]), hagree "albumin" (by simp [recognisedKeys])]
  unfold analyzeValues
  rw [hv]

/-- Witness for C9: an object carrying an unknown extra key analyses
identically to the same object without it. -/
theorem c9_analyze_pure_function_witness :
    analyzeValues measuredHStub
      (fun k => if k = "ph" then some 7.40 else if k = "paco2" then some 40
        else if k = "hco3" then some 24 else if k = "extraKey" then some 999 else none) =
    analyzeValues measuredHStub
      (fun k => if k = "ph" then some 7.40 else if k = "paco2" then some 40
        else if k = "hco3" then some 24 else none) := by
  apply c9_analyze_pure_function.2
  intro k hk
  fin_cases hk <;> rfl

/-- C10: in every returned state `additionalDisorders` is duplicate-free, and
each of the compensation, anion-gap and delta-ratio stages only appends to it
(preserving the order of first insertion). -/
theorem c10_additional_disorders_set :
    (∀ (pow10 : ℚ → ℚ) (v : Values),
      ((analyze pow10 v).state.additionalDisorders).Nodup) ∧
    (∀ (paco2 hco3 : ℚ) (s : AnalysisState),
      ∃ t, (evaluateCompensation paco2 hco3 s).2.additionalDisorders =
        s.additionalDisorders ++ t) ∧
    (∀ (na cl : Option ℚ) (hco3 : ℚ) (albumin : Option ℚ) (s : AnalysisState),
      ∃ t, (anionGapStage na cl hco3 albumin s).2.additionalDisorders =
        s.additionalDisorders ++ t) ∧
    (∀ (hco3 : ℚ) (s : AnalysisState),
      ∃ t, (deltaRatioStage hco3 s).2.additionalDisorders = s.additionalDisorders ++ t) := by
  refine ⟨?_, evaluateCompensation_addAppend, anionGapStage_addAppend,
    deltaRatioStage_addAppend⟩
  intro pow10 v
  cases hv : validateInputs v with
  | error e =>
    rw [analyze_fail pow10 v e hv]
    simp [resetState]
  | ok x =>
    obtain ⟨ph, paco2, hco3⟩ := x
    rw [analyze_ok_state pow10 v ph paco2 hco3 hv]
    have h4 : (stepFourState ph paco2 hco3).additionalDisorders.Nodup := by
      rw [stepFourState]
      rcases evaluateCompensation_add_cases paco2 hco3 (stepThreeState ph paco2 hco3) with
        hc | hc | hc | hc | hc <;> rw [hc] <;> simp [stepThreeState, resetState]
    exact deltaRatioStage_nodup _ _ (anionGapStage_nodup _ _ _ _ _ h4)

theorem validateInputs_ph_none (v : Values) (h : v.ph = none) :
    validateInputs v = .error "Missing or invalid required value: PH" := by
  unfold validateInputs
  rw [h]

theorem validateInputs_paco2_none (v : Values) (ph : ℚ) (h1 : v.ph = some ph)
    (h2 : v.paco2 = none) :
    validateInputs v = .error "Missing or invalid required value: PACO2" := by
  unfold validateInputs
  rw [h1, h2]

theorem validateInputs_hco3_none (v : Values) (ph paco2 : ℚ) (h1 : v.ph = some ph)
    (h2 : v.paco2 = some paco2) (h3 : v.hco3 = none) :
    validateInputs v = .error "Missing or invalid required value: HCO3" := by
  unfold validateInputs
  rw [h1, h2, h3]

theorem validateInputs_ph_range (v : Values) (ph paco2 hco3 : ℚ) (h1 : v.ph = some ph)
    (h2 : v.paco2 = some paco2) (h3 : v.hco3 = some hco3) (hr : ph < 6.0 ∨ ph > 8.0) :
    validateInputs v = .error ("pH value (" ++ jsNumToString ph ++
      ") is outside typical physiological range (6.8-8.0).") := by
  unfold validateInputs
  rw [h1, h2, h3]
  dsimp only
  rw [if_pos hr]

theorem validateInputs_paco2_range (v : Values) (ph paco2 hco3 : ℚ) (h1 : v.ph = some ph)
    (h2 : v.paco2 = some paco2) (h3 : v.hco3 = some hco3) (hp1 : 6 ≤ ph) (hp2 : ph ≤ 8)
    (hr : paco2 < 10 ∨ paco2 > 150) :
    validateInputs v = .error ("PaCO₂ value (" ++ jsNumToString paco2 ++
      ") is outside typical physiological range (10-150 mmHg).") := by
  unfold validateInputs
  rw [h1, h2, h3]
  dsimp only
  rw [if_neg (by rintro (hx | hx) <;> linarith), if_pos hr]

theorem validateInputs_hco3_range (v : Values) (ph paco2 hco3 : ℚ) (h1 : v.ph = some ph)
    (h2 : v.paco2 = some paco2) (h3 : v.hco3 = some hco3) (hp1 : 6 ≤ ph) (hp2 : ph ≤ 8)
    (hq1 : 10 ≤ paco2) (hq2 : paco2 ≤ 150) (hr : hco3 < 2 ∨ hco3 > 60) :
    validateInputs v = .error ("HCO₃⁻ value (" ++ jsNumToString hco3 ++
      ") is outside typical physiological range (5-60 mmol/L).") := by
  unfold validateInputs
  rw [h1, h2, h3]
  dsimp only
  rw [if_neg (by rintro (hx | hx) <;> linarith), if_neg (by rintro (hx | hx) <;> linarith),
    if_pos hr]

theorem validateInputs_ok (v : Values) (ph paco2 hco3 : ℚ) (h1 : v.ph = some ph)
    (h2 : v.paco2 = some paco2) (h3 : v.hco3 = some hco3) (hp1 : 6 ≤ ph) (hp2 : ph ≤ 8)
    (hq1 : 10 ≤ paco2) (hq2 : paco2 ≤ 150) (hh1 : 2 ≤ hco3) (hh2 : hco3 ≤ 60) :
    validateInputs v = .ok (ph, paco2, hco3) := by
  unfold validateInputs
  rw [h1, h2, h3]
  dsimp only
  rw [if_neg (by rintro (hx | hx) <;> linarith), if_neg (by rintro (hx | hx) <;> linarith),
    if_neg (by rintro (hx | hx) <;> linarith)]

/-- C3 (amended): the six analysis steps run (equivalently, no error is set
and step 2 wrote a classification) exactly when ph, paco2, hco3 are present
and within the inclusive bounds [6.0, 8.0], [10, 150], [2, 60]; otherwise a
validation error names the first offending required field in the order ph,
paco2, hco3 or, for a range failure, cites the offending value together with
a fixed range label — "6.8-8.0" for ph, "10-150 mmHg" for paco2, "5-60
mmol/L" for hco3, the ph and hco3 labels differing from the enforced bounds —
and every step text and the final interpretation stay empty with the state
left at its reset value. -/
theorem c3_validation_gate (pow10 : ℚ → ℚ) (v : Values) :
    ((∃ ph paco2 hco3, v.ph = some ph ∧ v.paco2 = some paco2 ∧ v.hco3 = some hco3 ∧
        6 ≤ ph ∧ ph ≤ 8 ∧ 10 ≤ paco2 ∧ paco2 ≤ 150 ∧ 2 ≤ hco3 ∧ hco3 ≤ 60) ↔
      (analyze pow10 v).results.error = none) ∧
    ((analyze pow10 v).results.error = none ↔
      ((analyze pow10 v).state.acidBaseStatus).isSome = true) ∧
    (∀ e, (analyze pow10 v).results.error = some e →
      (analyze pow10 v).results.step1 = "" ∧ (analyze pow10 v).results.step2 = "" ∧
      (analyze pow10 v).results.step3 = "" ∧ (analyze pow10 v).results.step4 = "" ∧
      (analyze pow10 v).results.step5 = "" ∧ (analyze pow10 v).results.step6 = "" ∧
      (analyze pow10 v).results.finalInterpretation = "" ∧
      (analyze pow10 v).state = resetState) ∧
    (v.ph = none →
      (analyze pow10 v).results.error = some "Missing or invalid required value: PH") ∧
    (∀ ph, v.ph = some ph → v.paco2 = none →
      (analyze pow10 v).results.error = some "Missing or invalid required value: PACO2") ∧
    (∀ ph paco2, v.ph = some ph → v.paco2 = some paco2 → v.hco3 = none →
      (analyze pow10 v).results.error = some "Missing or invalid required value: HCO3") ∧
    (∀ ph paco2 hco3, v.ph = some ph → v.paco2 = some paco2 → v.hco3 = some hco3 →
      ph < 6.0 ∨ ph > 8.0 →
      (analyze pow10 v).results.error = some ("pH value (" ++ jsNumToString ph ++
        ") is outside typical physiological range (6.8-8.0).")) ∧
    (∀ ph paco2 hco3, v.ph = some ph → v.paco2 = some paco2 → v.hco3 = some hco3 →
      6 ≤ ph → ph ≤ 8 → paco2 < 10 ∨ paco2 > 150 →
      (analyze pow10 v).results.error = some ("PaCO₂ value (" ++ jsNumToString paco2 ++
        ") is outside typical physiological range (10-150 mmHg).")) ∧
    (∀ ph paco2 hco3, v.ph = some ph → v.paco2 = some paco2 → v.hco3 = some hco3 →
      6 ≤ ph → ph ≤ 8 → 10 ≤ paco2 → paco2 ≤ 150 → hco3 < 2 ∨ hco3 > 60 →
      (analyze pow10 v).results.error = some ("HCO₃⁻ value (" ++ jsNumToString hco3 ++
        ") is outside typical physiological range (5-60 mmol/L).")) := by
  have hA : (∃ ph paco2 hco3, v.ph = some ph ∧ v.paco2 = some paco2 ∧ v.hco3 = some hco3 ∧
      6 ≤ ph ∧ ph ≤ 8 ∧ 10 ≤ paco2 ∧ paco2 ≤ 150 ∧ 2 ≤ hco3 ∧ hco3 ≤ 60) ↔
      (analyze pow10 v).results.error = none := by
    constructor
    · rintro ⟨ph, paco2, hco3, h1, h2, h3, b1, b2, b3, b4, b5, b6⟩
      exact analyze_ok_error pow10 v ph paco2 hco3
        (validateInputs_ok v ph paco2 hco3 h1 h2 h3 b1 b2 b3 b4 b5 b6)
    · intro herr
      cases h1 : v.ph with
      | none =>
        rw [analyze_fail pow10 v _ (validateInputs_ph_none v h1)] at herr
        simp at herr
      | some ph =>
        cases h2 : v.paco2 with
        | none =>
          rw [analyze_fail pow10 v _ (validateInputs_paco2_none v ph h1 h2)] at herr
          simp at herr
        | some paco2 =>
          cases h3 : v.hco3 with
          | none =>
            rw [analyze_fail pow10 v _ (validateInputs_hco3_none v ph paco2 h1 h2 h3)] at herr
            simp at herr
          | some hco3 =>
            by_cases hb1 : ph < 6.0 ∨ ph > 8.0
            · rw [analyze_fail pow10 v _
                (validateInputs_ph_range v ph paco2 hco3 h1 h2 h3 hb1)] at herr
              simp at herr
            · push_neg at hb1
              by_cases hb2 : paco2 < 10 ∨ paco2 > 150
              · rw [analyze_fail pow10 v _
                  (validateInputs_paco2_range v ph paco2 hco3 h1 h2 h3
                    (by linarith [hb1.1]) (by linarith [hb1.2]) hb2)] at herr
                simp at herr
              · push_neg at hb2
                by_cases hb3 : hco3 < 2 ∨ hco3 > 60
                · rw [analyze_fail pow10 v _
                    (validateInputs_hco3_range v ph paco2 hco3 h1 h2 h3
                      (by linarith [hb1.1]) (by linarith [hb1.2]) hb2.1 hb2.2 hb3)] at herr
                  simp at herr
                · push_neg at hb3
                  exact ⟨ph, paco2, hco3, rfl, rfl, rfl, by linarith [hb1.1],
                    by linarith [hb1.2], hb2.1, hb2.2, hb3.1, hb3.2⟩
  refine ⟨hA, ?_, ?_, ?_, ?_, ?_, ?_, ?_, ?_⟩
  · constructor
    · intro herr
      obtain ⟨ph, paco2, hco3, h1, h2, h3, b1, b2, b3, b4, b5, b6⟩ := hA.mpr herr
      rw [analyze_acidBaseStatus pow10 v ph paco2 hco3
        (validateInputs_ok v ph paco2 hco3 h1 h2 h3 b1 b2 b3 b4 b5 b6)]
      rfl
    · intro hsome
      cases hval : validateInputs v with
      | ok x =>
        obtain ⟨ph, paco2, hco3⟩ := x
        exact analyze_ok_error pow10 v ph paco2 hco3 hval
      | error e =>
        rw [analyze_fail pow10 v e hval] at hsome
        simp [resetState] at hsome
  · intro e herr
    cases hval : validateInputs v with
    | ok x =>
      obtain ⟨ph, paco2, hco3⟩ := x
      rw [analyze_ok_error pow10 v ph paco2 hco3 hval] at herr
      simp at herr
    | error e2 =>
      rw [analyze_fail pow10 v e2 hval]
      exact ⟨rfl, rfl, rfl, rfl, rfl, rfl, rfl, rfl⟩
  · intro h1
    rw [analyze_fail pow10 v _ (validateInputs_ph_none v h1)]
  · intro ph h1 h2
    rw [analyze_fail pow10 v _ (validateInputs_paco2_none v ph h1 h2)]
  · intro ph paco2 h1 h2 h3
    rw [analyze_fail pow10 v _ (validateInputs_hco3_none v ph paco2 h1 h2 h3)]
  · intro ph paco2 hco3 h1 h2 h3 hr
    rw [analyze_fail pow10 v _ (validateInputs_ph_range v ph paco2 hco3 h1 h2 h3 hr)]
  · intro ph paco2 hco3 h1 h2 h3 hp1 hp2 hr
    rw [analyze_fail pow10 v _
      (validateInputs_paco2_range v ph paco2 hco3 h1 h2 h3 hp1 hp2 hr)]
  · intro ph paco2 hco3 h1 h2 h3 hp1 hp2 hq1 hq2 hr
    rw [analyze_fail pow10 v _
      (validateInputs_hco3_range v ph paco2 hco3 h1 h2 h3 hp1 hp2 hq1 hq2 hr)]

/-- Witness for C3 (amended): a missing ph is reported as the first offending
field, and a fully in-range input passes. -/
theorem c3_validation_gate_witness :
    (analyze measuredHStub
      { ph := none, paco2 := some 40, hco3 := some 24,
        na := none, cl := none, albumin := none }).results.error =
      some "Missing or invalid required value: PH" ∧
    (analyze measuredHStub
      { ph := some 7.40, paco2 := some 40, hco3 := some 24,
        na := none, cl := none, albumin := none }).results.error = none := by
  constructor
  · exact (c3_validation_gate measuredHStub _).2.2.2.1 rfl
  · exact (c3_validation_gate measuredHStub _).1.mp
      ⟨7.40, 40, 24, rfl, rfl, rfl, by norm_num, by norm_num, by norm_num, by norm_num,
        by norm_num, by norm_num⟩

/-- C3 (counterexample): for ph = 5 the produced message cites the range
label "6.8-8.0" — the substring "6.0" does not occur in it — while the
enforced (and spec-stated) range is [6.0, 8.0]: a pH of 6.4, below the cited
6.8, passes validation. -/
theorem c3_range_text_counterexample :
    (analyze measuredHStub
      { ph := some 5, paco2 := some 40, hco3 := some 24,
        na := none, cl := none, albumin := none }).results.error =
      some "pH value (5) is outside typical physiological range (6.8-8.0)." ∧
    containsSubstr "pH value (5) is outside typical physiological range (6.8-8.0)."
      "6.0" = false ∧
    validateInputs
      { ph := some 6.4, paco2 := some 40, hco3 := some 24,
        na := none, cl := none, albumin := none } = .ok (6.4, 40, 24) ∧
    (6.4 : ℚ) < 6.8 := by
  have h5s : jsNumToString (5 : ℚ) = "5" := by
    simp only [jsNumToString, Rat.den_ofNat, Rat.num_ofNat]
    decide
  refine ⟨?_, by decide, by norm_num [validateInputs], by norm_num⟩
  rw [analyze_fail measuredHStub _ _
    (validateInputs_ph_range
      { ph := some 5, paco2 := some 40, hco3 := some 24,
        na := none, cl := none, albumin := none } 5 40 24 rfl rfl rfl (by norm_num)), h5s]
  decide
